import Mathlib

/-!
Verification development for the penny-stocks press-release alert pipeline.

Shallow embedding conventions, used throughout this file:

* JavaScript numbers are modeled as exact rationals (`ℚ`).  All numeric
  constants appearing in the source (score baselines, caps, bonuses,
  percentage floors) are small decimal fractions, and every comparison in the
  claims has slack far above IEEE-754 rounding error, so `ℚ` is a faithful
  abstraction of the `number` arithmetic actually performed.
* JavaScript strings are modeled as Lean `String`s; the regular-expression
  tests of the source are compiled, pattern by pattern, to a small executable
  matcher over `List Char` (word boundaries, character classes, bounded gaps,
  greedy numeric tokens).  Each compiled pattern is written next to the
  regular expression it was read from.
* The single-threaded JavaScript event loop is modeled explicitly for the
  concurrency pool (`runWithConcurrency` in `src/run_realtime.ts`):
  synchronous code runs atomically, a worker's `.finally` continuation runs
  as a later event.  The pool state tracks how many queue items were consumed
  (`cursor`), how many workers have settled (`settled`), which item indices
  have been handed to `worker` (`invoked`), and whether the final promise was
  resolved (`resolved`).
* The SQLite-backed idempotency ledger of `src/db/EventDB.ts` is modeled as a
  set of content hashes; SHA-256 is modeled by the (injective up to the
  separator) pre-image string `source|title|url`, which preserves exactly the
  property used by the code: equal `(title, url, source)` triples give equal
  hashes.  The `seen`-then-`save` block of `processItem` contains no `await`
  and `better-sqlite3` is synchronous, so on the single-threaded event loop
  the block executes atomically; it is therefore modeled as one atomic
  check-and-insert step.
-/

namespace NeonPR

/-! ## Concurrency pool (`runWithConcurrency`, src/run_realtime.ts lines 294-326)

The source:

```
async function runWithConcurrency(items, worker, concurrency) {
  if (items.length === 0) return;
  const queue = items.map((v, i) => (.v, i.));
  let active = 0;
  let cursor = 0;
  return new Promise((resolve) => {
    const launch = () => {
      if (cursor >= queue.length) {
        if (active === 0) resolve();
        return;
      }
      const (.v, i.) = queue[cursor++];
      active++;
      Promise.resolve(worker(v, i))
        .catch((err) => { log.error("[WORKER] unhandled error", (.idx: i, err.)); })
        .finally(() => { active--; launch(); });
      if (active < concurrency) launch();
    };
    const first = Math.min(concurrency, queue.length);
    for (let k = 0; k < first; k++) launch();
  });
}
```

`worker(v, i)` is called synchronously inside `launch`, so an item counts as
an active worker from the moment `launch` consumes it until its promise
settles.  The `.finally` continuation runs strictly after the synchronous
code of the current event (microtask semantics), so no worker can settle
while the initial `for` loop is still running.  `active` always equals
`cursor - settled`.
-/

structure PoolState where
  cursor : Nat
  settled : Nat
  resolved : Bool
  invoked : List Nat
  deriving Repr, DecidableEq

/-- Number of simultaneously active workers: launched but not yet settled. -/
def activeCount (s : PoolState) : Nat := s.cursor - s.settled

/-- One call of the `launch` closure, including its synchronous recursive
`if (active < concurrency) launch()` chain.  `fuel` is an upper bound on the
recursion depth (each recursive call consumes one queue item, so any
`fuel > N - cursor` is enough). -/
def launchGo (N B : Nat) : Nat → PoolState → PoolState
  | 0, s => s
  | fuel + 1, s =>
    if s.cursor < N then
      let s' : PoolState :=
        { s with cursor := s.cursor + 1, invoked := s.invoked ++ [s.cursor] }
      if s'.cursor - s'.settled < B then launchGo N B fuel s' else s'
    else if s.cursor - s.settled = 0 then { s with resolved := true } else s

/-- One call of `launch`. -/
def launch (N B : Nat) (s : PoolState) : PoolState := launchGo N B (N + 1) s

/-- The initial `for (let k = 0; k < first; k++) launch()` loop. -/
def launchTimes (N B : Nat) : Nat → PoolState → PoolState
  | 0, s => s
  | k + 1, s => launchTimes N B k (launch N B s)

/-- Pool state at the end of the synchronous body of `runWithConcurrency`
(the promise executor has run, no worker has settled yet). -/
def initPool (N B : Nat) : PoolState :=
  launchTimes N B (min B N) ⟨0, 0, false, []⟩

/-- One worker settling: its `.finally` callback runs `active--; launch()`.
The worker's outcome (fulfilled or rejected) is irrelevant because the
rejection was consumed by the `.catch` handler; the model takes the outcome
and ignores it, exactly as the code does. -/
def settleWith (N B : Nat) (_outcome : Bool) (s : PoolState) : PoolState :=
  launch N B { s with settled := s.settled + 1 }

/-- Run the pool: initial synchronous launches, then one settle event per
worker outcome, in the order the workers happen to finish. -/
def runPool (N B : Nat) (outcomes : List Bool) : PoolState :=
  outcomes.foldl (fun s o => settleWith N B o s) (initPool N B)

/-- Whether the `runWithConcurrency` call has completed.  The
`if (items.length === 0) return;` early exit completes without touching the
promise machinery. -/
def poolCompleted (N B : Nat) (outcomes : List Bool) : Bool :=
  if N = 0 then true else (runPool N B outcomes).resolved

/-- Closed form of the pool state after the initial launches and `k`
settle events (`B ≥ 1`, `k ≤ N`): `min N (2*B-1+k)` items consumed,
`k` settled, resolved exactly when everything has settled. -/
def stateK (N B k : Nat) : PoolState :=
  ⟨min N (2 * B - 1 + k), k, decide (k = N ∧ 1 ≤ N), List.range (min N (2 * B - 1 + k))⟩

lemma launchGo_lt (N B : Nat) :
    ∀ (fuel c t : Nat) (r : Bool) (inv : List Nat),
      N - c < fuel → t ≤ c → inv = List.range c → c < N →
      launchGo N B fuel ⟨c, t, r, inv⟩ =
        ⟨min N (max (c + 1) (t + B)), t, r,
          List.range (min N (max (c + 1) (t + B)))⟩ := by
  intro fuel
  induction fuel with
  | zero => intro c t r inv hf _ _ _; omega
  | succ fuel ih =>
    intro c t r inv hf hts hinv hlt
    simp only [launchGo, hlt, if_true]
    by_cases hchain : c + 1 - t < B
    · rw [if_pos hchain]
      by_cases hlt2 : c + 1 < N
      · rw [ih (c + 1) t r (inv ++ [c]) (by omega) (by omega)
          (by rw [hinv, List.range_succ]) hlt2]
        have h1 : min N (max (c + 1 + 1) (t + B)) =
            min N (max (c + 1) (t + B)) := by omega
        rw [h1]
      · have hN : c + 1 = N := by omega
        cases fuel with
        | zero => omega
        | succ fuel' =>
          simp only [launchGo]
          rw [if_neg (by omega)]
          rw [if_neg (by omega)]
          have h1 : min N (max (c + 1) (t + B)) = c + 1 := by omega
          rw [h1, hinv, List.range_succ]
    · rw [if_neg hchain]
      have h1 : min N (max (c + 1) (t + B)) = c + 1 := by omega
      rw [h1, hinv, List.range_succ]

lemma launch_lt (N B c t : Nat) (r : Bool) (inv : List Nat)
    (hts : t ≤ c) (hinv : inv = List.range c) (hlt : c < N) :
    launch N B ⟨c, t, r, inv⟩ =
      ⟨min N (max (c + 1) (t + B)), t, r,
        List.range (min N (max (c + 1) (t + B)))⟩ :=
  launchGo_lt N B (N + 1) c t r inv (by omega) hts hinv hlt

lemma launch_eq (N B t : Nat) (r : Bool) (inv : List Nat) :
    launch N B ⟨N, t, r, inv⟩ =
      if N - t = 0 then ⟨N, t, true, inv⟩ else ⟨N, t, r, inv⟩ := by
  unfold launch
  simp only [launchGo]
  rw [if_neg (by omega)]

lemma launchTimes_inv (N B : Nat) (hB : 1 ≤ B) (hN : 1 ≤ N) :
    ∀ (i c : Nat), min N B ≤ c → c ≤ N →
      launchTimes N B i ⟨c, 0, false, List.range c⟩ =
        ⟨min N (c + i), 0, false, List.range (min N (c + i))⟩ := by
  intro i
  induction i with
  | zero =>
    intro c _ hcN
    simp only [launchTimes]
    have h1 : min N (c + 0) = c := by omega
    rw [h1]
  | succ i ih =>
    intro c hc hcN
    simp only [launchTimes]
    by_cases hlt : c < N
    · rw [launch_lt N B c 0 false _ (by omega) rfl hlt]
      have h1 : min N (max (c + 1) (0 + B)) = c + 1 := by omega
      rw [h1, ih (c + 1) (by omega) (by omega)]
      have h2 : min N (c + 1 + i) = min N (c + (i + 1)) := by omega
      rw [h2]
    · have hcEq : c = N := by omega
      rw [hcEq]
      rw [launch_eq N B 0 false _]
      rw [if_neg (by omega)]
      rw [ih N (by omega) (by omega)]
      have h2 : min N (N + i) = min N (N + (i + 1)) := by omega
      rw [h2]

lemma initPool_spec (N B : Nat) (hB : 1 ≤ B) (hN : 1 ≤ N) :
    initPool N B = stateK N B 0 := by
  unfold initPool stateK
  obtain ⟨j, hj⟩ : ∃ j, min B N = j + 1 := ⟨min B N - 1, by omega⟩
  rw [hj]
  simp only [launchTimes]
  rw [show (⟨0, 0, false, []⟩ : PoolState) = ⟨0, 0, false, List.range 0⟩ by rfl]
  rw [launch_lt N B 0 0 false _ (by omega) rfl (by omega)]
  have h1 : min N (max (0 + 1) (0 + B)) = min N B := by omega
  rw [h1]
  rw [launchTimes_inv N B hB hN j (min N B) (by omega) (by omega)]
  have h2 : min N (min N B + j) = min N (2 * B - 1 + 0) := by omega
  have h3 : decide (0 = N ∧ 1 ≤ N) = false := by
    rw [decide_eq_false_iff_not]
    rintro ⟨h4, _⟩
    omega
  rw [h2, h3]

lemma settle_stateK (N B : Nat) (hB : 1 ≤ B) (hN : 1 ≤ N) (k : Nat) (hk : k < N)
    (o : Bool) : settleWith N B o (stateK N B k) = stateK N B (k + 1) := by
  unfold settleWith stateK
  have hkr : decide (k = N ∧ 1 ≤ N) = false := by
    rw [decide_eq_false_iff_not]
    rintro ⟨h4, _⟩
    omega
  rw [hkr]
  show launch N B ⟨min N (2 * B - 1 + k), k + 1, false, List.range (min N (2 * B - 1 + k))⟩ = _
  by_cases hlt : min N (2 * B - 1 + k) < N
  · rw [launch_lt N B _ (k + 1) false _ (by omega) rfl hlt]
    have h1 : min N (max (min N (2 * B - 1 + k) + 1) (k + 1 + B)) =
        min N (2 * B - 1 + (k + 1)) := by omega
    have h2 : decide (k + 1 = N ∧ 1 ≤ N) = false := by
      rw [decide_eq_false_iff_not]
      rintro ⟨h4, _⟩
      omega
    rw [h1, h2]
  · have hEq : min N (2 * B - 1 + k) = N := by omega
    rw [hEq, launch_eq N B (k + 1) false _]
    by_cases hfin : k + 1 = N
    · rw [if_pos (by omega)]
      have h1 : min N (2 * B - 1 + (k + 1)) = N := by omega
      have h2 : decide (k + 1 = N ∧ 1 ≤ N) = true := by
        rw [decide_eq_true_eq]
        exact ⟨hfin, hN⟩
      rw [h1, h2]
    · rw [if_neg (by omega)]
      have h1 : min N (2 * B - 1 + (k + 1)) = N := by omega
      have h2 : decide (k + 1 = N ∧ 1 ≤ N) = false := by
        rw [decide_eq_false_iff_not]
        rintro ⟨h4, _⟩
        omega
      rw [h1, h2]

lemma foldl_settle_stateK (N B : Nat) (hB : 1 ≤ B) (hN : 1 ≤ N) :
    ∀ (os : List Bool) (k : Nat), k + os.length ≤ N →
      os.foldl (fun s o => settleWith N B o s) (stateK N B k) =
        stateK N B (k + os.length) := by
  intro os
  induction os with
  | nil => intro k _; simp
  | cons o os ih =>
    intro k hk
    simp only [List.foldl_cons, List.length_cons]
    rw [settle_stateK N B hB hN k (by simp at hk; omega) o]
    rw [ih (k + 1) (by simp at hk ⊢; omega)]
    have h1 : k + 1 + os.length = k + (os.length + 1) := by omega
    rw [h1]

lemma runPool_spec (N B : Nat) (hB : 1 ≤ B) (hN : 1 ≤ N) (outcomes : List Bool)
    (hlen : outcomes.length ≤ N) :
    runPool N B outcomes = stateK N B outcomes.length := by
  unfold runPool
  rw [initPool_spec N B hB hN]
  have h := foldl_settle_stateK N B hB hN outcomes 0 (by omega)
  simpa using h

/-! ## Idempotency ledger (src/db/EventDB.ts, src/run_realtime.ts lines 366-379)

`makeHash` computes `sha256(source + "|" + title + "|" + (url ?? ""))`.
SHA-256 is modeled by the pre-image string itself: it is a deterministic
function of the triple, which is the only property the dedupe logic relies
on (SHA-256 collisions are outside the model).

`processItem` runs, with no intervening `await`:
```
const hash = eventDb.makeHash(.title, url, source.);
if (eventDb.seen(hash)) return;       // SELECT 1 FROM events WHERE hash=?
eventDb.save(item);                   // INSERT OR IGNORE ...
// ... then proceeds to enrichment and the Discord alert
```
Because `better-sqlite3` is synchronous and there is no suspension point
between `seen` and `save`, concurrent workers serialize this block on the
event loop; the model folds the per-item blocks in the order the workers
happen to execute them.  A worker alerts exactly when its block saw a fresh
hash.  Stages before the dedupe block (symbol / market-cap / exchange
filters) and failures of the Discord delivery itself are outside this model:
the claim is about items that reach the dedupe stage. -/

def makeHash (title : String) (url : Option String) (source : String) : String :=
  source ++ "|" ++ title ++ "|" ++ url.getD ""

/-- Atomic dedupe step over the ledger (set of hashes): returns the ledger
after the step and whether the worker proceeds to alert. -/
def dedupeStep (ledger : List String) (h : String) : List String × Bool :=
  if h ∈ ledger then (ledger, false) else (h :: ledger, true)

/-- Process a sequence of dedupe blocks (any interleaving of workers from any
number of cycles: the ledger is durable across cycles).  Returns the final
ledger and the list of `(hash, alerted)` events in execution order. -/
def runLedger (ledger : List String) : List String → List String × List (String × Bool)
  | [] => (ledger, [])
  | h :: hs =>
    let step := dedupeStep ledger h
    let rest := runLedger step.1 hs
    (rest.1, (h, step.2) :: rest.2)

/-- Number of alerts emitted for a given hash. -/
def alertsFor (h : String) (events : List (String × Bool)) : Nat :=
  (events.filter (fun e => e.1 == h && e.2)).length

lemma runLedger_mem_preserved (h : String) :
    ∀ (hs : List String) (ledger : List String), h ∈ ledger →
      h ∈ (runLedger ledger hs).1 ∧ alertsFor h (runLedger ledger hs).2 = 0 := by
  intro hs
  induction hs with
  | nil => intro ledger hmem; simpa [runLedger, alertsFor] using hmem
  | cons h' hs ih =>
    intro ledger hmem
    simp only [runLedger]
    by_cases hseen : h' ∈ ledger
    · simp only [dedupeStep, if_pos hseen]
      have hrec := ih ledger hmem
      refine ⟨hrec.1, ?_⟩
      simp only [alertsFor, List.filter_cons]
      rw [if_neg (by simp)]
      exact hrec.2
    · have hne : h' ≠ h := fun hEq => hseen (hEq ▸ hmem)
      simp only [dedupeStep, if_neg hseen]
      have hrec := ih (h' :: ledger) (List.mem_cons_of_mem _ hmem)
      refine ⟨hrec.1, ?_⟩
      simp only [alertsFor, List.filter_cons]
      rw [if_neg (by simp [hne])]
      exact hrec.2

lemma runLedger_at_most_one (h : String) :
    ∀ (hs : List String) (ledger : List String),
      alertsFor h (runLedger ledger hs).2 ≤ 1 := by
  intro hs
  induction hs with
  | nil => intro ledger; simp [runLedger, alertsFor]
  | cons h' hs ih =>
    intro ledger
    simp only [runLedger]
    by_cases hseen : h' ∈ ledger
    · simp only [dedupeStep, if_pos hseen]
      simp only [alertsFor, List.filter_cons]
      rw [if_neg (by simp)]
      exact ih ledger
    · simp only [dedupeStep, if_neg hseen]
      by_cases hEq : h' = h
      · subst hEq
        have hfresh := runLedger_mem_preserved h' hs (h' :: ledger) (by simp)
        simp only [alertsFor, List.filter_cons]
        rw [if_pos (by simp)]
        simp only [List.length_cons]
        have h0 := hfresh.2
        simp only [alertsFor] at h0
        omega
      · simp only [alertsFor, List.filter_cons]
        rw [if_neg (by simp [hEq])]
        exact ih (h' :: ledger)

lemma runLedger_first_alerts (h : String) :
    ∀ (hs : List String) (ledger : List String), h ∉ ledger → h ∈ hs →
      alertsFor h (runLedger ledger hs).2 = 1 := by
  intro hs
  induction hs with
  | nil => intro ledger _ hmem; simp at hmem
  | cons h' hs ih =>
    intro ledger hfresh hmem
    simp only [runLedger]
    by_cases hEq : h' = h
    · subst hEq
      simp only [dedupeStep, if_neg hfresh]
      have hafter := runLedger_mem_preserved h' hs (h' :: ledger) (by simp)
      simp only [alertsFor, List.filter_cons]
      rw [if_pos (by simp)]
      simp only [List.length_cons]
      have h0 := hafter.2
      simp only [alertsFor] at h0
      omega
    · have hmem2 : h ∈ hs := by
        rcases List.mem_cons.mp hmem with h1 | h1
        · exact absurd h1.symm hEq
        · exact h1
      by_cases hseen : h' ∈ ledger
      · simp only [dedupeStep, if_pos hseen]
        simp only [alertsFor, List.filter_cons]
        rw [if_neg (by simp)]
        exact ih ledger hfresh hmem2
      · simp only [dedupeStep, if_neg hseen]
        simp only [alertsFor, List.filter_cons]
        rw [if_neg (by simp [hEq])]
        exact ih (h' :: ledger) (by simp [hfresh, Ne.symm hEq]) hmem2

/-! ## Claim theorems for the orchestrator and the ledger -/

/-- Claim C1 (code bug witness).  The claim states that for a batch of `N`
items and bound `B ≥ 1` the number of simultaneously active workers never
exceeds `B`.  The code violates this: each iteration of the initial
`for (let k = 0; k < first; k++) launch()` loop launches one item
unconditionally before checking the bound, and the first iteration's
recursive chain has already filled the pool to `B`, so the synchronous
start-up phase launches `min N (2*B-1)` workers.  At the failing input
`N = 3`, `B = 2`, all three workers are active at once before any can
settle, exceeding the claimed bound of 2. -/
theorem claim_C1_bound_violated :
    activeCount (initPool 3 2) = 3 ∧ 2 < activeCount (initPool 3 2) := by decide

/-- Claim C7.  `run(items, worker, maxConcurrent)` with `B ≥ 1` invokes the
worker exactly once per item (the invocation list is exactly
`[0, 1, ..., N-1]`, each index once); the overall call completes only after
every worker has settled (it is completed at the end, and the promise is not
resolved after any proper prefix of the settle events); and worker failures
are irrelevant: the run with an arbitrary mix of fulfilled/rejected workers
equals the run in which every worker succeeds, because every rejection is
consumed by the `.catch` handler before the shared `.finally` bookkeeping. -/
theorem claim_C7_run_contract (N B : Nat) (hB : 1 ≤ B) (outcomes : List Bool)
    (hlen : outcomes.length = N) :
    poolCompleted N B outcomes = true ∧
    (runPool N B outcomes).invoked = List.range N ∧
    (∀ i, i < N → (runPool N B outcomes).invoked.count i = 1) ∧
    (runPool N B outcomes).settled = N ∧
    (∀ k, k < N → (runPool N B (outcomes.take k)).resolved = false) ∧
    runPool N B outcomes = runPool N B (List.replicate N true) := by
  by_cases hN0 : N = 0
  · subst hN0
    have hnil : outcomes = [] := List.eq_nil_of_length_eq_zero hlen
    subst hnil
    have hpool : runPool 0 B [] = ⟨0, 0, false, []⟩ := by
      unfold runPool initPool
      rw [Nat.min_zero]
      rfl
    refine ⟨rfl, by rw [hpool]; rfl, ?_, by rw [hpool], ?_, rfl⟩
    · intro i hi; omega
    · intro k hk; omega
  · have hN : 1 ≤ N := by omega
    have hrun : runPool N B outcomes = stateK N B N := by
      rw [runPool_spec N B hB hN outcomes (by omega), hlen]
    have hcursor : min N (2 * B - 1 + N) = N := by omega
    have hres : decide (N = N ∧ 1 ≤ N) = true := by
      rw [decide_eq_true_eq]; exact ⟨rfl, hN⟩
    refine ⟨?_, ?_, ?_, ?_, ?_, ?_⟩
    · unfold poolCompleted
      rw [if_neg hN0, hrun]
      unfold stateK
      rw [hres]
    · rw [hrun]; unfold stateK; rw [hcursor]
    · intro i hi
      rw [hrun]; unfold stateK; rw [hcursor]
      exact List.count_eq_one_of_mem (List.nodup_range N) (List.mem_range.mpr hi)
    · rw [hrun]; rfl
    · intro k hk
      have htake : (outcomes.take k).length = k := by
        rw [List.length_take, hlen]; omega
      rw [runPool_spec N B hB hN (outcomes.take k) (by omega), htake]
      unfold stateK
      simp only
      rw [decide_eq_false_iff_not]
      rintro ⟨h4, _⟩
      omega
    · rw [hrun, runPool_spec N B hB hN (List.replicate N true) (by simp),
        List.length_replicate]

/-- Witness for claim C7 at a concrete input: three items, bound two, the
second worker failing. -/
theorem claim_C7_run_contract_witness :
    1 ≤ 2 ∧ ([true, false, true] : List Bool).length = 3 ∧
      (poolCompleted 3 2 [true, false, true] = true ∧
       (runPool 3 2 [true, false, true]).invoked = List.range 3 ∧
       (∀ i, i < 3 → (runPool 3 2 [true, false, true]).invoked.count i = 1) ∧
       (runPool 3 2 [true, false, true]).settled = 3 ∧
       (∀ k, k < 3 → (runPool 3 2 ([true, false, true].take k)).resolved = false) ∧
       runPool 3 2 [true, false, true] = runPool 3 2 (List.replicate 3 true)) :=
  ⟨by decide, by decide, claim_C7_run_contract 3 2 (by decide) [true, false, true] (by decide)⟩

/-- Claim C2.  The ledger hash is a deterministic function of
`(title, url, source)` — `makeHash` is a function, and the model records the
exact pre-image `source|title|url` that `EventDB.makeHash` feeds to SHA-256 —
and a press item submitted twice (or more) with identical
`(title, url, source)`, in the same cycle or across cycles, produces exactly
one alert: the first dedupe block to run alerts, every later block sees the
saved hash, and in general at most one alert is ever produced per hash. -/
theorem claim_C2_exactly_once (t : String) (u : Option String) (s : String)
    (ledger hs : List String) (hfresh : makeHash t u s ∉ ledger)
    (htwice : 2 ≤ hs.count (makeHash t u s)) :
    alertsFor (makeHash t u s) (runLedger ledger hs).2 = 1 ∧
    (∀ (h : String) (ledger' hs' : List String),
      alertsFor h (runLedger ledger' hs').2 ≤ 1) := by
  constructor
  · refine runLedger_first_alerts _ hs ledger hfresh ?_
    have : 0 < hs.count (makeHash t u s) := by omega
    exact List.count_pos_iff.mp this
  · intro h ledger' hs'
    exact runLedger_at_most_one h hs' ledger'

/-- Witness for claim C2 at a concrete input: the same item processed twice
in one run starting from an empty (fresh) ledger. -/
theorem claim_C2_exactly_once_witness :
    (makeHash "Acme wins contract" (some "https://www.prnewswire.com/a") "fmp" ∉
      ([] : List String)) ∧
    2 ≤ ([makeHash "Acme wins contract" (some "https://www.prnewswire.com/a") "fmp",
          makeHash "Acme wins contract" (some "https://www.prnewswire.com/a") "fmp"] :
        List String).count
        (makeHash "Acme wins contract" (some "https://www.prnewswire.com/a") "fmp") ∧
    (alertsFor (makeHash "Acme wins contract" (some "https://www.prnewswire.com/a") "fmp")
        (runLedger []
          [makeHash "Acme wins contract" (some "https://www.prnewswire.com/a") "fmp",
           makeHash "Acme wins contract" (some "https://www.prnewswire.com/a") "fmp"]).2 = 1 ∧
     (∀ (h : String) (ledger' hs' : List String),
        alertsFor h (runLedger ledger' hs').2 ≤ 1)) :=
  ⟨by decide, by decide,
    claim_C2_exactly_once "Acme wins contract" (some "https://www.prnewswire.com/a") "fmp"
      [] _ (by decide) (by decide)⟩

/-! ## Executable matcher for the source's regular expressions

Each JavaScript regular expression of the pipeline is compiled to a sequence
of alternation groups separated by gap specifications:

* an alternation group is a list of `Phrase`s (token sequences with optional
  word-boundary flags at the two ends), one per expanded alternative of the
  `(a|b|c)` group (`x?` optionals and `[sz]`-style classes are expanded into
  explicit variants);
* a gap models the `.*` / `[^.]{0,n}` / `[^.%]{0,90}` separators: a set of
  banned characters, whether line terminators are banned (JS `.` without the
  `s` flag), and an optional length bound.

Numeric sub-patterns (`\d{1,3}`, `(?:\.\d+)?`, `\$`, `\s*`, `(?:,\d{3})+`,
the `(?!\.)` lookahead) are represented by dedicated tokens matched with
maximal munch.  For every pattern in this file the token following a greedy
numeric token can never begin with a character the numeric token could also
consume, so maximal munch coincides with the backtracking semantics of the
JS engine.  Case-insensitive (`/i`) patterns are written in lowercase and
matched against the lowercased haystack. -/

def isWordChar (c : Char) : Bool := c.isAlphanum || c == '_'

/-- JS `\s` on the ASCII range the feeds produce. -/
def isSpaceJS (c : Char) : Bool :=
  c == ' ' || c == '\t' || c == '\n' || c == '\r' || c == '\x0b' || c == '\x0c'

/-- ASCII lowering, modeling `String.prototype.toLowerCase` on the ASCII
range actually exercised. -/
def asciiLower (c : Char) : Char :=
  if 'A' ≤ c && c ≤ 'Z' then Char.ofNat (c.toNat + 32) else c

def lowerList (s : String) : List Char := s.data.map asciiLower

def countLead (p : Char → Bool) : List Char → Nat
  | [] => 0
  | c :: s => if p c then countLead p s + 1 else 0

/-- Number of leading digits, capped by `hi` when given. -/
def takeDigits : List Char → Option Nat → Nat
  | [], _ => 0
  | c :: s, hi =>
    if c.isDigit then
      match hi with
      | some 0 => 0
      | some (n + 1) => takeDigits s (some n) + 1
      | none => takeDigits s none + 1
    else 0

def digitsValL (l : List Char) : Nat := l.foldl (fun a c => a * 10 + (c.toNat - 48)) 0

/-- Characters consumed by a maximal `(?:,\d{3})+`, or 0 when no repetition
matches. -/
def takeCommaTriples : List Char → Nat
  | ',' :: a :: b :: c :: rest =>
    if a.isDigit && b.isDigit && c.isDigit then 4 + takeCommaTriples rest else 0
  | _ => 0

inductive Tok where
  | lit : List Char → Tok
  | ws0 : Tok
  | ws01 : Tok
  | ws1 : Tok
  | wsOne : Tok
  | digits : Nat → Option Nat → Tok
  | digitsGe : Nat → Option Nat → Nat → Tok
  | optFrac : Tok
  | noDotAhead : Tok
  | clsPlus : List Char → Tok
  | commaTriples : Tok
  deriving Repr

structure Phrase where
  toks : List Tok
  bb : Bool
  ba : Bool
  deriving Repr

def dropLit : List Char → List Char → Option (List Char)
  | s, [] => some s
  | [], _ :: _ => none
  | c :: s, w :: ws => if c == w then dropLit s ws else none

def updFst (fst : Option Char) (c : Char) : Option Char :=
  match fst with
  | none => some c
  | some a => some a

/-- Match a token sequence at the head of `s`, maximal munch, tracking the
first and last characters consumed (for the word-boundary checks). -/
def matchToks : Option Char → Option Char → List Char → List Tok →
    Option (Option Char × Option Char × List Char)
  | fst, lst, s, [] => some (fst, lst, s)
  | fst, lst, s, Tok.lit w :: ts =>
    match dropLit s w with
    | none => none
    | some r =>
      match w with
      | [] => matchToks fst lst r ts
      | c :: cs => matchToks (updFst fst c) (some (List.getLastD cs c)) r ts
  | fst, lst, s, Tok.ws0 :: ts =>
    match countLead isSpaceJS s with
    | 0 => matchToks fst lst s ts
    | k + 1 => matchToks (updFst fst ' ') (some ' ') (s.drop (k + 1)) ts
  | fst, lst, s, Tok.ws01 :: ts =>
    match s with
    | [] => matchToks fst lst [] ts
    | c :: r => if isSpaceJS c then matchToks (updFst fst c) (some c) r ts
                else matchToks fst lst s ts
  | fst, lst, s, Tok.ws1 :: ts =>
    match countLead isSpaceJS s with
    | 0 => none
    | k + 1 => matchToks (updFst fst ' ') (some ' ') (s.drop (k + 1)) ts
  | fst, lst, s, Tok.wsOne :: ts =>
    match s with
    | [] => none
    | c :: r => if isSpaceJS c then matchToks (updFst fst c) (some c) r ts else none
  | fst, lst, s, Tok.digits lo hi :: ts =>
    let k := takeDigits s hi
    if k < lo then none
    else match k with
      | 0 => matchToks fst lst s ts
      | k + 1 => matchToks (updFst fst (s.getD 0 '0')) (some (s.getD k '0'))
          (s.drop (k + 1)) ts
  | fst, lst, s, Tok.digitsGe lo hi bound :: ts =>
    let k := takeDigits s hi
    if k < lo then none
    else match k with
      | 0 => none
      | k + 1 =>
        if digitsValL (s.take (k + 1)) < bound then none
        else matchToks (updFst fst (s.getD 0 '0')) (some (s.getD k '0'))
          (s.drop (k + 1)) ts
  | fst, lst, s, Tok.optFrac :: ts =>
    match s with
    | '.' :: r =>
      let k := takeDigits r none
      match k with
      | 0 => matchToks fst lst s ts
      | k + 1 => matchToks (updFst fst '.') (some (r.getD k '0')) (r.drop (k + 1)) ts
    | _ => matchToks fst lst s ts
  | fst, lst, s, Tok.noDotAhead :: ts =>
    match s with
    | '.' :: _ => none
    | _ => matchToks fst lst s ts
  | fst, lst, s, Tok.clsPlus cs :: ts =>
    match countLead (fun c => cs.contains c) s with
    | 0 => none
    | k + 1 => matchToks (updFst fst (s.getD 0 ' ')) (some (s.getD k ' '))
        (s.drop (k + 1)) ts
  | fst, lst, s, Tok.commaTriples :: ts =>
    match takeCommaTriples s with
    | 0 => none
    | k + 1 => matchToks (updFst fst ',') (some (s.getD k '0')) (s.drop (k + 1)) ts

def isWordO : Option Char → Bool
  | some c => isWordChar c
  | none => false

/-- JS `\b`: the two sides of a position differ in word-character-ness. -/
def boundaryAt (a b : Option Char) : Bool := isWordO a != isWordO b

def phraseAt (prev : Option Char) (s : List Char) (p : Phrase) :
    Option (Option Char × List Char) :=
  match matchToks none none s p.toks with
  | none => none
  | some (fst, lst, rest) =>
    let okB := !p.bb || boundaryAt prev fst
    let okA := !p.ba || boundaryAt lst rest.head?
    if okB && okA then some (lst, rest) else none

structure GapSpec where
  banned : List Char
  noNewline : Bool
  bound : Option Nat
  deriving Repr

/-- Unrestricted scan before the first group (the regex may match anywhere). -/
def gapAny : GapSpec := ⟨[], false, none⟩

/-- JS `.*` without the `s` flag: any characters except line terminators. -/
def gapDot : GapSpec := ⟨[], true, none⟩

/-- JS `[^.]{0,n}`. -/
def gapNoDot (n : Nat) : GapSpec := ⟨['.'], false, some n⟩

/-- JS `[^cs]{0,n}` for an explicit banned set. -/
def gapCls (cs : List Char) (n : Nat) : GapSpec := ⟨cs, false, some n⟩

def gapOkChar (g : GapSpec) (c : Char) : Bool :=
  !(g.banned.contains c) && (!g.noNewline || (c != '\n' && c != '\r'))

/-- Search for the group sequence: at each position either one alternative of
the current group matches (with its boundary flags) and the search continues
with the remaining groups after the match, or one gap character is skipped.
`used` counts the characters skipped inside the current gap.  `fuel` bounds
the recursion; every step consumes a character or a group, so
`length + #groups + 2` is always sufficient. -/
def seqSearch : Nat → Option Char → List Char → GapSpec → Nat →
    List Phrase → List (GapSpec × List Phrase) → Bool
  | 0, _, _, _, _, _, _ => false
  | fuel + 1, prev, s, g, used, alts, rest =>
    (alts.any fun p =>
      match phraseAt prev s p with
      | none => false
      | some (lst, r) =>
        match rest with
        | [] => true
        | (g2, alts2) :: rest2 => seqSearch fuel lst r g2 0 alts2 rest2) ||
    (match s with
     | [] => false
     | c :: s2 =>
       (match g.bound with
        | none => true
        | some b => decide (used < b)) &&
       gapOkChar g c &&
       seqSearch fuel (some c) s2 g (used + 1) alts rest)

def rxTest (s : List Char) (first : List Phrase)
    (rest : List (GapSpec × List Phrase)) : Bool :=
  seqSearch (s.length + rest.length + 2) none s gapAny 0 first rest

/-- Test a case-insensitive (`/i`) pattern: the haystack is lowercased and
the pattern is written in lowercase. -/
def rxI (s : String) (first : List Phrase) (rest : List (GapSpec × List Phrase)) : Bool :=
  rxTest (lowerList s) first rest

/-- Test a case-sensitive pattern. -/
def rxCS (s : String) (first : List Phrase) (rest : List (GapSpec × List Phrase)) : Bool :=
  rxTest s.data first rest

def lp (w : String) : Phrase := ⟨[Tok.lit w.data], true, true⟩

def lps (ws : List String) : List Phrase := ws.map lp

def tp (ts : List Tok) : Phrase := ⟨ts, true, true⟩

def tpn (bb ba : Bool) (ts : List Tok) : Phrase := ⟨ts, bb, ba⟩

def tl (w : String) : Tok := Tok.lit w.data

/-- Case-insensitive word-boundary alternation test: `\b(w1|w2|…)\b`. -/
def hasW (s : String) (ws : List String) : Bool := rxI s (lps ws) []

/-- Plain substring containment (no boundaries), case-insensitive; models
un-anchored regex alternations and `String.prototype.includes` after
lowercasing. -/
def containsSub : List Char → List Char → Bool
  | s, w =>
    match s with
    | [] => w.isEmpty
    | _ :: s2 => (dropLit s w).isSome || containsSub s2 w

def containsAnyI (s : String) (ws : List String) : Bool :=
  ws.any fun w => containsSub (lowerList s) w.data

/-- Case-sensitive substring containment (models `t.includes(tok)`). -/
def containsAnyCS (s : String) (ws : List String) : Bool :=
  ws.any fun w => containsSub s.data w.data

/-- Suffix after the first occurrence of a separator, or `none`. -/
def splitAtSub : List Char → List Char → Option (List Char)
  | s, sep =>
    match s with
    | [] => if sep.isEmpty then some [] else none
    | _ :: s2 =>
      match dropLit s sep with
      | some r => some r
      | none => splitAtSub s2 sep

/-- Model of `new URL(url).hostname.toLowerCase()` for the absolute
`scheme://host/...` URLs these feeds carry; `none` models the URL
constructor throwing (which every caller catches). -/
def hostname (url : String) : Option String :=
  match splitAtSub url.data [':', '/', '/'] with
  | none => none
  | some rest =>
    let host := rest.takeWhile fun c => !(c == '/' || c == '?' || c == '#' || c == ':')
    if host.isEmpty then none
    else some (String.mk (host.map asciiLower))

def strStartsWith (h p : String) : Bool := (dropLit h.data p.data).isSome

def jsTrim (s : String) : String :=
  String.mk (((s.data.dropWhile isSpaceJS).reverse.dropWhile isSpaceJS).reverse)

/-- Model of JS `parseFloat` on the strings this pipeline can feed it:
optional leading whitespace and sign, then decimal digits with optional
fraction and optional exponent; `none` models `NaN`.  Every use in the
pipeline clamps the result immediately afterwards. -/
def parseFloatQ (s : String) : Option ℚ :=
  let cs0 := s.data.dropWhile isSpaceJS
  let signAndRest : ℚ × List Char :=
    match cs0 with
    | '-' :: r => (-1, r)
    | '+' :: r => (1, r)
    | r => (1, r)
  let sign := signAndRest.1
  let cs := signAndRest.2
  let ip := cs.takeWhile Char.isDigit
  let cs2 := cs.drop ip.length
  let fracAndRest : List Char × List Char :=
    match cs2 with
    | '.' :: r => (r.takeWhile Char.isDigit, r.drop (r.takeWhile Char.isDigit).length)
    | _ => ([], cs2)
  let fp := fracAndRest.1
  let cs3 := fracAndRest.2
  if ip.isEmpty && fp.isEmpty then none
  else
    let base : ℚ := (digitsValL ip : ℚ) + (digitsValL fp : ℚ) / ((10 : ℚ) ^ fp.length)
    let expPart : Bool × Nat :=
      match cs3 with
      | e :: r =>
        if e == 'e' || e == 'E' then
          match r with
          | '-' :: r2 =>
            let d := r2.takeWhile Char.isDigit
            if d.isEmpty then (false, 0) else (true, digitsValL d)
          | '+' :: r2 =>
            let d := r2.takeWhile Char.isDigit
            (false, digitsValL d)
          | r2 =>
            let d := r2.takeWhile Char.isDigit
            (false, digitsValL d)
        else (false, 0)
      | [] => (false, 0)
    some (if expPart.1 then sign * base / ((10 : ℚ) ^ expPart.2)
          else sign * base * ((10 : ℚ) ^ expPart.2))

/-! ## Data model (src/types.ts)

One structure serves for `RawItem` and `ClassifiedItem` (`ClassifiedItem`
extends `RawItem` with `klass`, `score`, `marketCap`); optional string
fields are `Option String`, and `text` is the undeclared extra field some
feeds carry (read via `(it as any).text`). -/

structure Item where
  id : String := ""
  title : Option String := none
  summary : Option String := none
  text : Option String := none
  url : Option String := none
  source : String := ""
  publishedAt : Option String := none
  symbols : List String := []
  klass : String := "OTHER"
  score : ℚ := 0
  marketCap : Option ℚ := none

/-! ## Materiality scorer (src/pipeline/score.ts, the final variant)

Every definition below is the compilation of the correspondingly named
regular expression or function of score.ts.  The file also declares
`RX_FIN_RESULTS`, `RX_EARNINGS_BEAT`, `RX_PIVOTAL`, `RX_MID_STAGE_WIN`,
`RX_TOPLINE_STRONG`, `extractDollarsMillions` and `microMaterialityBoost`,
none of which is referenced by the body of `score`; they are omitted as dead
code. -/

/-- BASELINE lookup with the `?? BASELINE.OTHER` fallback. -/
def BASELINE (label : String) : ℚ :=
  match label with
  | "PIVOTAL_TRIAL_SUCCESS" => 0.72
  | "FDA_MARKETING_AUTH" => 0.7
  | "FDA_ADCOM_POSITIVE" => 0.66
  | "REGULATORY_DESIGNATION" => 0.54
  | "TIER1_PARTNERSHIP" => 0.6
  | "MAJOR_GOV_CONTRACT" => 0.6
  | "GOVERNMENT_EQUITY_OR_GRANT" => 0.58
  | "ACQUISITION_BUYOUT" => 0.64
  | "IPO_DEBUT_POP" => 0.55
  | "COURT_WIN_INJUNCTION" => 0.56
  | "MEME_OR_INFLUENCER" => 0.5
  | "RESTRUCTURING_OR_FINANCING" => 0.5
  | "POLICY_OR_POLITICS_TAILWIND" => 0.44
  | "EARNINGS_BEAT_OR_GUIDE_UP" => 0.52
  | "INDEX_INCLUSION" => 0.5
  | "UPLISTING_TO_NASDAQ" => 0.46
  | "REVERSE_SPLIT_UPLIST_PATH" => 0.58
  | "CE_REMOVAL_OR_RESUME_TRADING" => 0.67
  | "GOING_CONCERN_REMOVED" => 0.56
  | "INSIDER_BUY_CLUSTER" => 0.6
  | "TOXIC_FINANCING_TERMINATED" => 0.62
  | "AUTHORIZED_SHARES_REDUCED" => 0.54
  | "DILUTION_FREE_INVESTMENT" => 0.58
  | "LARGE_ORDER_RELATIVE" => 0.57
  | "DISTRIBUTION_AGREEMENT_MATERIAL" => 0.6
  | "CRYPTO_OR_AI_TREASURY_PIVOT" => 0.55
  | "CUSTODIANSHIP_OR_RM_DEAL" => 0.6
  | "AUDIT_COMPLETED_FILINGS_CURED" => 0.56
  | "OTHER" => 0.2
  | _ => 0.2

/-- `at[- ]the[- ]market` expanded. -/
def atTheMarketV : List String :=
  ["at-the-market", "at-the market", "at the-market", "at the market"]

/-- LARGE_DOLLAR_AMOUNT = `\$?\s?(?:\d{2,4})\s*(?:million|billion|bn|mm|m)\b`. -/
def LARGE_DOLLAR_AMOUNT (s : String) : Bool :=
  rxI s
    (["million", "billion", "bn", "mm", "m"].flatMap fun u =>
      [tpn false true [tl "$", Tok.ws01, Tok.digits 2 (some 4), Tok.ws0, tl u],
       tpn false true [Tok.ws01, Tok.digits 2 (some 4), Tok.ws0, tl u]]) []

/-- SUPERLATIVE_WORDS = `\b(record|unprecedented|all-time|exclusive|breakthrough|pivotal)\b`. -/
def SUPERLATIVE_WORDS (s : String) : Bool :=
  hasW s ["record", "unprecedented", "all-time", "exclusive", "breakthrough", "pivotal"]

/-- BIG_MOVE_WORDS = `\b(double|doubled|triple|tripled)\b`. -/
def BIG_MOVE_WORDS (s : String) : Bool :=
  hasW s ["double", "doubled", "triple", "tripled"]

def WIRE_HOSTS : List String :=
  ["www.prnewswire.com", "www.globenewswire.com", "www.businesswire.com",
   "www.accesswire.com", "www.newsfilecorp.com", "prismmediawire.com",
   "www.prismmediawire.com", "mcapmediawire.com", "www.mcapmediawire.com"]

def WIRE_TOKENS : List String :=
  ["PR Newswire", "GlobeNewswire", "Business Wire", "ACCESSWIRE", "Newsfile",
   "MCAP MediaWire", "PRISM MediaWire", "MCAP", "PRISM"]

/-- score.ts `isWirePR`: wire host, `ir.`/`investors.` host prefix, or the
lowercased text contains a lowercased wire token. -/
def isWirePR_score (url : Option String) (text : String) : Bool :=
  (match url with
   | none => false
   | some u =>
     if u == "" then false
     else
       match hostname u with
       | none => false
       | some h =>
         WIRE_HOSTS.contains h || strStartsWith h "ir." || strStartsWith h "investors.") ||
  WIRE_TOKENS.any fun tok => containsSub (lowerList text) (lowerList tok)

/-- RX_PROXY_ADVISOR = `\b(ISS|Institutional Shareholder Services|Glass Lewis)\b.*\b(recommend(s|ed)?|support(s|ed)?)\b.*\b(vote|proposal|deal|merger)\b`. -/
def RX_PROXY_ADVISOR (s : String) : Bool :=
  rxI s (lps ["iss", "institutional shareholder services", "glass lewis"])
    [(gapDot, lps ["recommend", "recommends", "recommended",
                   "support", "supports", "supported"]),
     (gapDot, lps ["vote", "proposal", "deal", "merger"])]

/-- RX_VOTE_ADMIN_ONLY. -/
def RX_VOTE_ADMIN_ONLY (s : String) : Bool :=
  hasW s ["definitive proxy", "proxy statement", "proxy materials",
          "special meeting", "annual meeting", "extraordinary general meeting",
          "egm", "shareholder vote", "record date"]

/-- RX_LAWFIRM, with `Bronstein[, ]+Gewirtz` as a class-plus token phrase. -/
def RX_LAWFIRM (s : String) : Bool :=
  rxI s
    (lps ["class action", "securities class action", "investor lawsuit",
          "investor alert", "investor reminder", "deadline alert",
          "shareholder rights law firm", "securities litigation",
          "investigation", "investigating", "hagens berman", "pomerantz",
          "rosen law firm", "glancy prongay", "kahn swick", "saxena white",
          "kessler topaz", "levi & korsinsky"] ++
     [tp [tl "bronstein", Tok.clsPlus [',', ' '], tl "gewirtz"]]) []

/-- RX_SECURITY_UPDATE = `\b(cyber(?:security)?|security|ransomware|data (?:breach|exposure)|cyber[- ]?attack)\b.*\b(update|updated|provid(?:e|es)d? an? update)\b`. -/
def RX_SECURITY_UPDATE (s : String) : Bool :=
  rxI s
    (lps ["cyber", "cybersecurity", "security", "ransomware", "data breach",
          "data exposure", "cyberattack", "cyber-attack", "cyber attack"])
    [(gapDot,
      lps (["update", "updated"] ++
        (["provide", "provides", "provided", "providesd"].flatMap fun v =>
          ["a", "an"].map fun art => v ++ " " ++ art ++ " update")))]

/-- RX_INVESTOR_CONFS. -/
def RX_INVESTOR_CONFS (s : String) : Bool :=
  rxI s (lps ["participate", "participates", "participating",
              "to participate", "will participate"])
    [(gapDot, lps ["investor conference", "investor conferences", "conference",
                   "fireside chat", "non-deal roadshow"])]

/-- RX_AWARDS. -/
def RX_AWARDS (s : String) : Bool :=
  hasW s
    (["award", "awards", "winner", "wins", "finalist", "recipient", "honoree",
      "recognized", "recognition"] ++
     (["as", "to"].flatMap fun prep =>
       ["list", "index", "ranking"].flatMap fun noun =>
         ["named " ++ prep ++ " " ++ noun, "named " ++ prep ++ " the " ++ noun]) ++
     ["anniversary", "celebrates", "celebrating", "celebration"])

/-- RX_NAME_TICKER_CHANGE. -/
def RX_NAME_TICKER_CHANGE (s : String) : Bool :=
  hasW s
    (["rename", "renamed", "renames", "name change",
      "change name", "changes name", "change its name", "changes its name",
      "to trade under"] ++
     (["change", "changes", "changed"].flatMap fun v =>
       ["ticker " ++ v, "ticker symbol " ++ v]))

/-- The scorer's inline misinformation kill regex:
`\b(misinformation|unauthorized (press )?release|retracts? (?:a )?press release|clarif(?:y|ies) misinformation)\b`. -/
def scMisinfo (s : String) : Bool :=
  hasW s ["misinformation", "unauthorized press release", "unauthorized release",
          "retract press release", "retracts press release",
          "retract a press release", "retracts a press release",
          "clarify misinformation", "clarifies misinformation"]

/-- The analyst/media noise cap regex:
`\b(initiates?|reiterates?|maintains?|upgrades?|downgrades?)\b.*\b(coverage|rating|price target|pt|target)\b`. -/
def scAnalystNoise (s : String) : Bool :=
  rxI s (lps ["initiate", "initiates", "reiterate", "reiterates", "maintain",
              "maintains", "upgrade", "upgrades", "downgrade", "downgrades"])
    [(gapDot, lps ["coverage", "rating", "price target", "pt", "target"])]

/-- Shelf/ATM cap regex:
`\b(Form\s*S-3|shelf registration|at[- ]the[- ]market|ATM (program|facility))\b`. -/
def scShelfATM (s : String) : Bool :=
  rxI s
    ([tp [tl "form", Tok.ws0, tl "s-3"]] ++
     lps (["shelf registration"] ++ atTheMarketV ++ ["atm program", "atm facility"])) []

/-- Money-per-share phrase `\$\s?\d+(?:\.\d+)?\s*(?:per|\/)\s*share\b`
(no leading boundary). -/
def perShareMoney : List Phrase :=
  ["per", "/"].map fun sep =>
    tpn false true [tl "$", Tok.ws01, Tok.digits 1 none, Tok.optFrac,
                    Tok.ws0, tl sep, Tok.ws0, tl "share"]

/-- isSpecialDiv =
`\b(special (cash )?dividend)\b.*\$\s?\d+(?:\.\d+)?\s*(?:per|\/)\s*share|\b(special (cash )?dividend of)\s*\$\s?\d+(?:\.\d+)?\b`. -/
def scSpecialDiv (s : String) : Bool :=
  rxI s (lps ["special dividend", "special cash dividend"])
    [(gapDot, perShareMoney)] ||
  rxI s
    (["special dividend of", "special cash dividend of"].map fun w =>
      tpn true true [tl w, Tok.ws0, tl "$", Tok.ws01, Tok.digits 1 none, Tok.optFrac]) []

/-- Buyback/dividend generic cap regex:
`\b(share repurchase|buyback|issuer tender offer|dutch auction|dividend (declaration|increase|initiation))\b`. -/
def scBuybackDividend (s : String) : Bool :=
  hasW s ["share repurchase", "buyback", "issuer tender offer", "dutch auction",
          "dividend declaration", "dividend increase", "dividend initiation"]

/-- Strategic-alternatives cap regex. -/
def scStrategicAlts (s : String) : Bool :=
  hasW s ["strategic alternative", "strategic alternatives",
          "exploring alternatives", "exploring options",
          "review of strategic alternatives", "considering strategic alternatives"]

/-- Plain-dilutive financing regex (first conjunct of `isPlainDilutive`). -/
def scDilutive (s : String) : Bool :=
  hasW s
    (["securities purchase agreement", "spa", "registered direct", "pipe",
      "private placement", "warrant", "warrants",
      "convertible note", "convertible notes",
      "convertible debenture", "convertible debentures",
      "convertible securitie", "convertible securities", "atm"] ++
     atTheMarketV ++
     ["equity offering", "equity raise", "unit offering", "unit financing",
      "pricing of offering", "pricing of an offering"])

/-- `\b(premium|above[- ]market|priced at)\b.*\$\d`. -/
def scDilutivePremium (s : String) : Bool :=
  rxI s (lps ["premium", "above-market", "above market", "priced at"])
    [(gapDot, [tpn false false [tl "$", Tok.digits 1 (some 1)]])]

/-- `\b(strategic (investment|investor|partner|partnership|financing))\b`. -/
def scStrategicInvestment (s : String) : Bool :=
  hasW s ["strategic investment", "strategic investor", "strategic partner",
          "strategic partnership", "strategic financing"]

/-- `\b(going[- ]concern (removed|resolved)|debt (extinguished|retired|repaid|eliminated|paid (down|off))|default (cured|resolved))\b`. -/
def scDebtPositive (s : String) : Bool :=
  hasW s ["going concern removed", "going-concern removed",
          "going concern resolved", "going-concern resolved",
          "debt extinguished", "debt retired", "debt repaid", "debt eliminated",
          "debt paid down", "debt paid off", "default cured", "default resolved"]

/-- RX_MNA_DEFINITIVE (score.ts variant, including `definitive deal`). -/
def RX_MNA_DEFINITIVE (s : String) : Bool :=
  hasW s
    (["definitive merger", "definitive agreement", "definitive deal",
      "merger agreement executed", "merger agreement signed",
      "business combination", "business combination agreement",
      "amalgamation agreement", "plan of merger"] ++
     (["enter", "enters", "entered"].flatMap fun v =>
       ["agreement", "merger"].flatMap fun n =>
         ["into definitive", "into a definitive"].map fun mid =>
           v ++ " " ++ mid ++ " " ++ n))

/-- RX_MNA_WILL_ACQUIRE = `\b(will|to)\s+acquire\b|\bto be acquired\b`. -/
def RX_MNA_WILL_ACQUIRE (s : String) : Bool :=
  rxI s [tp [tl "will", Tok.ws1, tl "acquire"],
         tp [tl "to", Tok.ws1, tl "acquire"],
         lp "to be acquired"] []

/-- RX_MNA_PERPRICE = per-share price, or
`(?:deal|transaction|enterprise|equity)\s+value(?:d)?\s+at\s+\$?\d+(?:\.\d+)?\s*(?:million|billion|bn|mm|m)\b`
(note: no leading `\b` on the second alternative). -/
def RX_MNA_PERPRICE (s : String) : Bool :=
  rxI s
    (perShareMoney ++
     (["deal", "transaction", "enterprise", "equity"].flatMap fun a =>
       ["value", "valued"].flatMap fun v =>
         ["million", "billion", "bn", "mm", "m"].flatMap fun u =>
           [tpn false true [tl a, Tok.ws1, tl v, Tok.ws1, tl "at", Tok.ws1,
              tl "$", Tok.digits 1 none, Tok.optFrac, Tok.ws0, tl u],
            tpn false true [tl a, Tok.ws1, tl v, Tok.ws1, tl "at", Tok.ws1,
              Tok.digits 1 none, Tok.optFrac, Tok.ws0, tl u]])) []

/-- RX_MNA_LOI_ANY. -/
def RX_MNA_LOI_ANY (s : String) : Bool :=
  hasW s ["letter of intent", "loi", "non-binding", "non binding", "indicative"]

/-- RX_MNA_ADMIN = `\b(extend(s|ed|ing)?|extension)\b.*\b(expiration|expiry)\b.*\b(tender offer|offer)\b`. -/
def RX_MNA_ADMIN (s : String) : Bool :=
  rxI s (lps ["extend", "extends", "extended", "extending", "extension"])
    [(gapDot, lps ["expiration", "expiry"]),
     (gapDot, lps ["tender offer", "offer"])]

/-- RX_ASSET_SALE. -/
def RX_ASSET_SALE (s : String) : Bool :=
  rxI s (lps ["divestiture", "divest", "divests", "carveout", "carve-out",
              "carve out", "spinoff", "spin-off", "spin off",
              "dispose", "disposal", "disposes", "disposed"])
    [(gapDot, lps ["stake", "interest", "asset", "assets", "business",
                   "subsidiary", "equity position"])]

/-- RX_ASSET_SALE_TITLELIKE. -/
def RX_ASSET_SALE_TITLELIKE (s : String) : Bool :=
  rxI s
    ((["complete", "completes", "close", "closes"].flatMap fun v =>
       ["sale", "disposition"].flatMap fun n =>
         [tp [tl v, Tok.ws1, tl n, Tok.ws1, tl "of"],
          tp [tl v, Tok.ws1, tl "the", Tok.ws1, tl n, Tok.ws1, tl "of"]]) ++
     (["subsidiary", "business", "unit", "division", "asset", "assets"].map fun n =>
       tp [tl "sale", Tok.ws1, tl "of", Tok.ws1, tl n])) []

/-- RX_PROPERTY_ACQ. -/
def RX_PROPERTY_ACQ (s : String) : Bool :=
  rxI s (lps ["acquire", "acquires", "acquisition of"])
    [(gapDot, lps ["property", "properties", "facility", "facilities",
                   "building", "real estate", "inpatient rehabilitation"])]

/-- RX_MNA_ANNOUNCE = `\b(announce[sd]?|completes?|completed|closes?|closed)\b[^.]{0,40}\b(acquisition|acquire[sd]?|merger)\b`. -/
def RX_MNA_ANNOUNCE (s : String) : Bool :=
  rxI s (lps ["announce", "announces", "announced", "complete", "completes",
              "completed", "close", "closes", "closed"])
    [(gapNoDot 40, lps ["acquisition", "acquire", "acquires", "acquired", "merger"])]

/-- mcMillions: known finite marketCap, in millions of dollars. -/
def mcMillions (it : Item) : Option ℚ := it.marketCap.map (fun mc => mc / 1000000)

/-- Capitalization-tier bump of the scorer (score.ts, the
`isSub10M/isSub25M/isSub100M/isSmallCap` if/else-if chain), factored as the
single addend it contributes:
  truthy mc < 10M → +0.18; < 25M → +0.14; < 100M → +0.10; otherwise +0.14
  when `0 < marketCap < 1e9`, else +0.  A missing or zero market cap falls
  through every guard (`!!mc` is false) and reaches the final else with
  `isSmallCap = false`, adding nothing. -/
def capTierBonus (it : Item) : ℚ :=
  let smallCapBump : ℚ :=
    if 0 < it.marketCap.getD 0 ∧ it.marketCap.getD 0 < 1000000000 then 0.14 else 0
  match mcMillions it with
  | some mc =>
    if mc ≠ 0 ∧ mc < 10 then 0.18
    else if mc ≠ 0 ∧ mc < 25 then 0.14
    else if mc ≠ 0 ∧ mc < 100 then 0.1
    else smallCapBump
  | none => smallCapBump

/-- The wire-sensitive label list of score.ts step 10. -/
def wireSensitiveLabels : List String :=
  ["PIVOTAL_TRIAL_SUCCESS", "FDA_MARKETING_AUTH", "FDA_ADCOM_POSITIVE",
   "TIER1_PARTNERSHIP", "MAJOR_GOV_CONTRACT", "GOVERNMENT_EQUITY_OR_GRANT",
   "ACQUISITION_BUYOUT", "EARNINGS_BEAT_OR_GUIDE_UP", "INDEX_INCLUSION",
   "UPLISTING_TO_NASDAQ", "IPO_DEBUT_POP"]

/-- Final clamp `Math.max(0, Math.min(1, s))`. -/
def clamp01q (q : ℚ) : ℚ := max 0 (min 1 q)

/-- score.ts `score` applied to one item (the exported `score` maps this over
the list).  Steps in source order: misinformation kill; baseline; noise
caps; dilutive-financing cap; ACQUISITION_BUYOUT adjustments; wire
modulation; capitalization-tier bump; generic textual nudges;
single-symbol bump; clamp to [0,1]. -/
def scoreOne (it : Item) : Item :=
  let blob := it.title.getD "" ++ " " ++ it.summary.getD ""
  let label := it.klass
  let isWire := isWirePR_score it.url blob
  if scMisinfo blob then { it with score := 0 } else
  let s := BASELINE label
  let s := if RX_PROXY_ADVISOR blob || RX_VOTE_ADMIN_ONLY blob then min s 0.2 else s
  let s := if RX_LAWFIRM blob then min s 0.12 else s
  let s := if RX_AWARDS blob then min s 0.18 else s
  let s := if RX_SECURITY_UPDATE blob then min s 0.16 else s
  let s := if RX_INVESTOR_CONFS blob then min s 0.16 else s
  let s := if RX_NAME_TICKER_CHANGE blob then min s 0.16 else s
  let s := if scAnalystNoise blob then min s 0.16 else s
  let s := if scShelfATM blob then min s 0.18 else s
  let isSpecialDiv := scSpecialDiv blob
  let s := if !isSpecialDiv && scBuybackDividend blob then min s 0.2 else s
  let s := if scStrategicAlts blob then min s 0.3 else s
  let isPlainDilutive := scDilutive blob &&
    !(scDilutivePremium blob || scStrategicInvestment blob || scDebtPositive blob)
  let s := if isPlainDilutive then min s 0.18 else s
  let s :=
    if label == "ACQUISITION_BUYOUT" then
      let definitive := RX_MNA_DEFINITIVE blob ||
        (RX_MNA_WILL_ACQUIRE blob && RX_MNA_PERPRICE blob)
      let s := if definitive then s + 0.06 else s
      let s := if RX_MNA_PERPRICE blob then s + 0.02 else s
      let s := if RX_MNA_ANNOUNCE blob then s + 0.04 else s
      let s := if RX_MNA_LOI_ANY blob then s - 0.06 else s
      let s := if RX_MNA_ADMIN blob then min s 0.4 else s
      if RX_ASSET_SALE blob || RX_ASSET_SALE_TITLELIKE blob || RX_PROPERTY_ACQ blob
      then min s 0.4 else s
    else s
  let s :=
    if wireSensitiveLabels.contains label then
      let isMicro := match mcMillions it with
        | some mc => decide (mc < 50)
        | none => false         -- `mcMillions(it) ?? Infinity`
      let allowOffWire := label == "ACQUISITION_BUYOUT" && isMicro &&
        RX_MNA_ANNOUNCE blob
      if isWire then s + 0.04
      else if !allowOffWire then min s 0.48
      else s
    else s
  let s := s + capTierBonus it
  let s := if SUPERLATIVE_WORDS blob then s + 0.04 else s
  let s := if LARGE_DOLLAR_AMOUNT blob then s + 0.06 else s
  let s := if BIG_MOVE_WORDS blob then s + 0.06 else s
  let s := if it.symbols.length == 1 then s + 0.03 else s
  { it with score := clamp01q s }

/-- score.ts exported `score`. -/
def score (items : List Item) : List Item := items.map scoreOne

/-! ## Classification engine (src/pipeline/classify.ts)

The definitions below compile classify.ts: `normalize`, the tier-1
counterparty alternation, the `PAT` table, the helpers, and `classifyOne`.
`PAT` members not referenced by `classifyOne` (`reverseSplit`,
`reverseSplitRatio`, `financialResultsOnly`, `preclinNHP`, `cellModelEarly`,
`singlePivotalPathway`, `cryptoPivot`, `HOT_DISEASE_RX`) are dead code and
omitted. -/

def normChar (c : Char) : Char :=
  if c == '“' || c == '”' then '"'
  else if c == '’' || c == '‘' then '\''
  else if c == '‑' || c == '–' || c == '—' then '-'
  else c

/-- Whitespace-run collapse (`.replace(/\s+/g, " ")`), fuel-driven so that it
reduces in the kernel; the fuel is the string length, always sufficient. -/
def collapseWsGo : Nat → List Char → List Char
  | 0, _ => []
  | _, [] => []
  | fuel + 1, c :: rest =>
    if isSpaceJS c then ' ' :: collapseWsGo fuel (rest.dropWhile isSpaceJS)
    else c :: collapseWsGo fuel rest

/-- classify.ts `normalize`: collapse whitespace, straighten curly quotes,
normalize dashes, trim. -/
def normalize (s : String) : String :=
  jsTrim (String.mk ((collapseWsGo (s.data.length + 1) s.data).map normChar))

/-- JS `a || b || ""` over two optional strings (empty string is falsy). -/
def jsOr2 (a b : Option String) : String :=
  let ta := a.getD ""
  if ta == "" then (let tb := b.getD ""; if tb == "" then "" else tb) else ta

/-- classify.ts `isWirePR`: like the scorer's, but the token containment is
case-sensitive against the normalized text. -/
def isWirePR_classify (url : Option String) (text : String) : Bool :=
  let t := normalize text
  (match url with
   | none => false
   | some u =>
     if u == "" then false
     else
       match hostname u with
       | none => false
       | some h =>
         WIRE_HOSTS.contains h || strStartsWith h "ir." || strStartsWith h "investors.") ||
  WIRE_TOKENS.any fun tok => containsSub t.data tok.data

def TIER1_COUNTERPARTIES : List String :=
  ["Nvidia", "Microsoft", "OpenAI", "Apple", "Amazon", "AWS", "Google",
   "Alphabet", "Meta", "Facebook", "Tesla", "Oracle", "Salesforce", "Adobe",
   "IBM", "Intel", "AMD", "Broadcom", "Qualcomm", "TSMC", "Samsung", "Cisco",
   "Dell", "HPE", "Supermicro", "Snowflake", "Palantir", "Siemens", "Sony",
   "Workday", "ServiceNow", "Shopify", "Twilio", "Atlassian", "Zoom",
   "Datadog", "CrowdStrike", "Okta", "MongoDB", "Cloudflare", "Stripe",
   "Block", "Square", "Walmart", "Target", "Costco", "Home Depot", "Lowe's",
   "Best Buy", "Alibaba", "Tencent", "JD.com", "ByteDance", "TikTok",
   "Lockheed Martin", "Raytheon", "RTX", "Boeing", "Northrop Grumman",
   "General Dynamics", "L3Harris", "BAE Systems", "Thales", "Airbus",
   "SpaceX", "NASA", "Space Force", "USSF", "DARPA", "Department of Defense",
   "DoD", "Army", "Navy", "Air Force", "Pfizer", "Merck", "Johnson & Johnson",
   "J&J", "Bristol-Myers", "BMS", "Eli Lilly", "Lilly", "Sanofi", "GSK",
   "AstraZeneca", "Novo Nordisk", "Roche", "Novartis", "Bayer", "Amgen",
   "AbbVie", "Takeda", "Gilead", "Biogen", "Regeneron", "Medtronic",
   "Boston Scientific", "Abbott", "GE Healthcare", "Philips",
   "Siemens Healthineers", "Intuitive Surgical", "BARDA", "HHS", "NIH",
   "CMS", "Medicare", "VA", "FDA", "EMA", "EC", "MHRA", "PMDA", "ExxonMobil",
   "Chevron", "BP", "Shell", "TotalEnergies", "Schlumberger", "Halliburton",
   "Caterpillar", "Deere", "GE", "Honeywell", "Disney", "Netflix", "Comcast",
   "NBCUniversal", "Warner Bros. Discovery", "Paramount", "Visa",
   "Mastercard", "PayPal", "American Express", "Verizon", "AT&T", "T-Mobile",
   "Uber", "Lyft", "DoorDash", "Instacart", "SAP", "Databricks", "Anthropic",
   "Cohere", "Epic Games", "Unity", "Nintendo", "Red Hat", "GitHub"]

/-- TIER1_RX = `\b(?:name1|name2|…)(?:'s)?\b`, case-insensitive (the `'s`
variants are kept although the apostrophe, a non-word character, already
gives a boundary after the bare name). -/
def TIER1_RX (s : String) : Bool :=
  rxI s
    (TIER1_COUNTERPARTIES.flatMap fun n =>
      [lp (String.mk (lowerList n)), lp (String.mk (lowerList n) ++ "'s")]) []

/-- TIER1_SMALL_VERBS. -/
def TIER1_SMALL_VERBS (s : String) : Bool :=
  hasW s ["powered by", "built on", "built with",
          "integrat with", "integrates with", "integrated with",
          "adopts", "adopted", "select", "selects",
          "standardizes on", "standardized on", "deploy", "deploys",
          "rolls out", "invest in", "invests in",
          "make strategic investment in", "makes strategic investment in",
          "make a strategic investment in", "makes a strategic investment in",
          "expand", "expands", "extend", "extends", "renew", "renews"]

/-- RECORD_SALES_RX = `\brecord\b[^.]{0,40}\b(revenue|sales)\b`. -/
def RECORD_SALES_RX (s : String) : Bool :=
  rxI s (lps ["record"]) [(gapNoDot 40, lps ["revenue", "sales"])]

/-- hasBigPercentGrowth.  The captured percentage test (`pct >= 50`) is
encoded in `Tok.digitsGe`; this version tests for the existence of a
qualifying match, whereas the JS code reads only the first match — the two
agree on every input a theorem below evaluates. -/
def hasBigPercentGrowth (x : String) : Bool :=
  rxI x (lps ["revenue", "sales", "eps", "earnings", "arr", "bookings", "net income"])
    [(gapCls ['.', '%'] 90,
      lps ["up", "increase", "increases", "increased", "grow", "grown", "grows",
           "growt", "growh", "jump", "jumped", "soar", "soared", "surged"]),
     (gapCls ['%'] 25, [tpn false false [Tok.digitsGe 2 (some 3) 50, Tok.ws01, tl "%"]])] ||
  RECORD_SALES_RX x

/-- swingToProfit. -/
def swingToProfit (x : String) : Bool :=
  rxI x
    (["return", "returns", "returned", "swing", "swung", "back"].flatMap fun v =>
      ["profit", "profitability", "positive income", "positive net income"].map fun n =>
        tp [tl v, Tok.ws1, tl "to", Tok.ws1, tl n]) []

/-- Unit words of the dollar extractor, with their multiplier to millions,
in the source's alternation order. -/
def unitWords : List (String × ℚ) :=
  [("million", 1), ("billion", 1000), ("bn", 1000), ("mm", 1), ("m", 1), ("b", 1000)]

def matchUnit (s : List Char) : Option (ℚ × List Char) :=
  (unitWords.filterMap fun uw =>
    match dropLit s uw.1.data with
    | none => none
    | some r =>
      match r with
      | [] => some (uw.2, r)
      | c :: _ => if isWordChar c then none else some (uw.2, r)).head?

/-- Digits (at most `maxInt` integer digits) with optional `.digits`
fraction, as a rational, with the remaining characters. -/
def digitsFracAt (s : List Char) (maxInt : Nat) : Option (ℚ × List Char) :=
  match takeDigits s (some maxInt) with
  | 0 => none
  | k =>
    let ip := s.take k
    let rest := s.drop k
    match rest with
    | '.' :: r =>
      match takeDigits r none with
      | 0 => some ((digitsValL ip : ℚ), rest)
      | kf => some ((digitsValL ip : ℚ) + (digitsValL (r.take kf) : ℚ) / (10 : ℚ) ^ kf,
          r.drop kf)
    | _ => some ((digitsValL ip : ℚ), rest)

/-- One attempt of `\$?\s?(\d{1,3}(?:\.\d+)?)\s*(million|billion|bn|mm|m|b)\b`
at the current position, in millions. -/
def unitDollarsAt (s : List Char) : Option ℚ :=
  let s1 := match s with | '$' :: r => r | _ => s
  let s2 := match s1 with
    | c :: r => if isSpaceJS c then r else s1
    | [] => s1
  match digitsFracAt s2 3 with
  | none => none
  | some (v, rest) =>
    let rest2 := rest.drop (countLead isSpaceJS rest)
    match matchUnit rest2 with
    | none => none
    | some (mult, _) => some (v * mult)

/-- One attempt of `\$\s?(\d{minD,maxD})(?!\.)\b` at the current position,
in raw dollars. -/
def rawDollarsAt (minD maxD : Nat) (s : List Char) : Option ℚ :=
  match s with
  | '$' :: r =>
    let r2 := match r with
      | c :: rr => if isSpaceJS c then rr else r
      | [] => r
    let k := takeDigits r2 (some maxD)
    if k < minD then none
    else
      match r2.drop k with
      | '.' :: _ => none
      | [] => some ((digitsValL (r2.take k) : ℚ))
      | c :: _ => if isWordChar c then none else some ((digitsValL (r2.take k) : ℚ))
  | _ => none

/-- Leftmost-match scan. -/
def scanFirst (f : List Char → Option ℚ) : List Char → Option ℚ
  | [] => none
  | c :: rest =>
    match f (c :: rest) with
    | some v => some v
    | none => scanFirst f rest

/-- classify.ts `extractDollars`: unit-suffixed amount in millions, else a
raw 6-to-12-digit dollar figure divided by 1e6. -/
def extractDollars (x : String) : Option ℚ :=
  match scanFirst unitDollarsAt (lowerList x) with
  | some v => some v
  | none =>
    match scanFirst (rawDollarsAt 6 12) (lowerList x) with
    | some n => some (n / 1000000)
    | none => none

/-- classify.ts `isMaterialMicroDollar`: `(material, major)` =
`(amount ≥ $1M, amount ≥ $7.5M)`. -/
def isMaterialMicroDollar (x : String) : Bool × Bool :=
  match extractDollars x with
  | none => (false, false)
  | some m => (decide (m ≥ 1), decide (m ≥ 7.5))

/-- `p<\s*0?\.\d+` (the p-value alternative shared by several bio patterns). -/
def pValuePhrases : List Phrase :=
  [tpn true true [tl "p<", Tok.ws0, tl "0.", Tok.digits 1 none],
   tpn true true [tl "p<", Tok.ws0, tl ".", Tok.digits 1 none]]

/-- PAT.pivotal. -/
def PAT_pivotal (s : String) : Bool :=
  rxI s
    ([tp [tl "phase", Tok.ws0, tl "iii"], tp [tl "phase", Tok.ws0, tl "3"]] ++
     lps ["pivotal", "registrational", "late-stage", "late stage"])
    [(gapDot,
      lps ["success", "met primary endpoint", "met the primary endpoint",
           "statistically significant"] ++ pValuePhrases)]

/-- PAT.topline. -/
def PAT_topline (s : String) : Bool :=
  rxI s (lps ["top-line", "topline"])
    [(gapDot,
      lps ["positive", "met primary endpoint", "met the primary endpoint",
           "statistically significant"] ++ pValuePhrases)]

/-- PAT.midStageWin. -/
def PAT_midStageWin (s : String) : Bool :=
  rxI s
    ([tp [tl "phase", Tok.ws0, tl "ii"], tp [tl "phase", Tok.ws0, tl "2"]] ++
     lps ["mid-stage", "mid stage"])
    [(gapDot, lps ["win", "successful", "success", "met", "achieved",
                   "statistically significant", "primary endpoint"])]

/-- PAT.adcom. -/
def PAT_adcom (s : String) : Bool :=
  rxI s (lps ["advisory committee", "advisory panel", "adcom"])
    [(gapDot, lps ["vote", "voted", "recommend", "recommends"])]

/-- PAT.approval. -/
def PAT_approval (s : String) : Bool :=
  rxI s (lps ["fda", "ema", "ec", "mhra", "pmda", "nmpa", "cfda", "anvisa",
              "health canada", "hc", "tga", "mfds", "cdsco", "sahpra"])
    [(gapDot,
      lps ["approve", "approved", "approval", "authorized", "authorisation",
           "authorization", "clearance", "clears", "eua", "510(k)",
           "ide approval", "ide approved"] ++
      [tp [tl "de", Tok.ws01, tl "novo"]])]

/-- PAT.ukca. -/
def PAT_ukca (s : String) : Bool :=
  rxI s (lps ["ukca"])
    [(gapDot, lps ["mark", "certification", "certificate"]),
     (gapDot, lps ["approval", "approved", "granted", "obtained"])]

/-- PAT.designation. -/
def PAT_designation (s : String) : Bool :=
  hasW s ["breakthrough therapy", "breakthrough device", "btd", "fast-track",
          "fast track", "orphan designation", "orphan drug designation",
          "prime", "rmat"]

/-- PAT.ndaAcceptOrPriority. -/
def PAT_ndaAcceptOrPriority (s : String) : Bool :=
  rxI s (lps ["fda", "ema", "mhra", "pmda", "nmpa", "anvisa", "health canada",
              "hc", "tga"])
    [(gapDot, lps ["accept", "accepts", "accepted", "acceptance",
                   "acceptance of", "acceptance for review"]),
     (gapDot, lps ["submission", "resubmission", "nda", "bla", "maa"])] ||
  hasW s ["priority review"]

/-- PAT.clinicalHoldLift. -/
def PAT_clinicalHoldLift (s : String) : Bool :=
  rxI s (lps ["fda"])
    [(gapDot, lps ["lift", "lifts", "lifted", "remove", "removes", "removed"]),
     (gapDot, lps ["clinical hold"])]

/-- PAT.mnaAnnounce — same regex text as the scorer's RX_MNA_ANNOUNCE. -/
def PAT_mnaAnnounce (s : String) : Bool := RX_MNA_ANNOUNCE s

/-- PAT.awardsPR. -/
def PAT_awardsPR (s : String) : Bool :=
  hasW s ["award", "awarded", "honor", "honored", "recognition", "prize",
          "winner", "winning"]

/-- PAT.strategicAltsOutcome. -/
def PAT_strategicAltsOutcome (s : String) : Bool :=
  rxI s (lps ["strategic alternatives", "sale process", "exploring options",
              "review of alternatives", "concluded", "completed", "outcome",
              "result", "sale", "transaction"])
    [(gapDot, lps ["concluded", "completed", "resulted", "outcome", "sale",
                   "transaction", "agreement", "deal"])]

/-- PAT.typoErratum. -/
def PAT_typoErratum (s : String) : Bool :=
  hasW s ["typo", "erratum", "correction", "corrects", "amended release"]

/-- PAT.mnaBinding (no `definitive deal` alternative, unlike the scorer's). -/
def PAT_mnaBinding (s : String) : Bool :=
  hasW s
    (["definitive agreement", "definitive merger",
      "merger agreement executed", "merger agreement signed",
      "business combination", "business combination agreement",
      "amalgamation agreement", "plan of merger"] ++
     (["enter", "enters", "entered"].flatMap fun v =>
       ["agreement", "merger"].flatMap fun n =>
         ["into definitive", "into a definitive"].map fun mid =>
           v ++ " " ++ mid ++ " " ++ n))

/-- PAT.mnaWillAcquire — same regex text as the scorer's. -/
def PAT_mnaWillAcquire (s : String) : Bool := RX_MNA_WILL_ACQUIRE s

/-- PAT.mnaPerShareOrValue — same regex text as the scorer's RX_MNA_PERPRICE. -/
def PAT_mnaPerShareOrValue (s : String) : Bool := RX_MNA_PERPRICE s

/-- PAT.mnaNonBinding. -/
def PAT_mnaNonBinding (s : String) : Bool :=
  hasW s ["non-binding", "non binding", "indicative", "letter of intent", "loi"]

/-- PAT.mnaAdminOnly = `\b(extend(s|ed|ing)?|extension)\b.*\b(tender offer|offer)\b`
(no expiration group, unlike the scorer's RX_MNA_ADMIN). -/
def PAT_mnaAdminOnly (s : String) : Bool :=
  rxI s (lps ["extend", "extends", "extended", "extending", "extension"])
    [(gapDot, lps ["tender offer", "offer"])]

/-- PAT.mnaAssetOrProperty. -/
def PAT_mnaAssetOrProperty (s : String) : Bool :=
  rxI s
    (lps ["divestiture", "divest", "divests", "carveout", "carve-out",
          "carve out", "spinoff", "spin-off", "spin off",
          "dispose", "disposes", "disposed", "disposal"] ++
     (["asset", "assets"].flatMap fun a =>
       ["sale", "disposition", "purchase"].map fun n =>
         tp [tl a, Tok.ws1, tl n]) ++
     (["complete", "completes", "close", "closes"].flatMap fun v =>
       ["sale", "disposition"].flatMap fun n =>
         [tp [tl v, Tok.ws1, tl n, Tok.ws1, tl "of"],
          tp [tl v, Tok.ws1, tl "the", Tok.ws1, tl n, Tok.ws1, tl "of"]]) ++
     (["subsidiary", "business", "unit", "division", "asset", "assets"].map fun n =>
       tp [tl "sale", Tok.ws1, tl "of", Tok.ws1, tl n])) []

/-- PAT.mnaUnsolicitedProposal. -/
def PAT_mnaUnsolicitedProposal (s : String) : Bool :=
  rxI s (lps ["unsolicited", "non-binding", "non binding", "indicative"])
    [(gapDot, lps ["proposal", "offer"]),
     (gapDot,
      perShareMoney ++
      (["value", "valued"].flatMap fun v =>
        ["million", "billion", "bn", "mm", "m"].flatMap fun u =>
          [tpn false true [tl v, Tok.ws1, tl "at", Tok.ws1, tl "$",
             Tok.digits 1 none, Tok.optFrac, Tok.ws0, tl u],
           tpn false true [tl v, Tok.ws1, tl "at", Tok.ws1,
             Tok.digits 1 none, Tok.optFrac, Tok.ws0, tl u]]))]

/-- PAT.mnaPremiumMention. -/
def PAT_mnaPremiumMention (s : String) : Bool :=
  rxI s
    (["represent", "represents", "represented"].flatMap fun v =>
      [tp [tl v, Tok.ws1, Tok.digits 2 (some 3), Tok.ws01, tl "%", Tok.ws1, tl "premium"],
       tp [tl v, Tok.ws1, tl "a", Tok.ws1, Tok.digits 2 (some 3), Tok.ws01, tl "%",
           Tok.ws1, tl "premium"],
       tp [tl v, Tok.ws1, tl "an", Tok.ws1, Tok.digits 2 (some 3), Tok.ws01, tl "%",
           Tok.ws1, tl "premium"]]) []

/-- PAT.spinOffDist. -/
def PAT_spinOffDist (s : String) : Bool :=
  rxI s (lps ["spinoff", "spin-off", "spin off", "separation", "separate",
              "separates", "separated", "splitoff", "split-off", "split off"])
    [(gapDot,
      lps ["record date", "distribution date", "when-issued", "when issued"] ++
      [tp [tl "form", Tok.ws0, tl "10"]])]

/-- PAT.partnershipAny. -/
def PAT_partnershipAny (s : String) : Bool :=
  hasW s ["partner", "partnership", "strategic alliance", "strategic partnership",
          "joint venture", "jv", "collaborate", "collaboration",
          "co-develop", "co develop", "co-produce", "co produce",
          "distribution", "license", "licence", "supply", "integration",
          "deployment", "offtake", "off-take", "off take"]

/-- PAT.dealSigned. -/
def PAT_dealSigned (s : String) : Bool :=
  rxI s (lps ["signed", "signs", "ink", "inks", "enter into", "enters into",
              "entered into"])
    [(gapDot, lps ["agreement", "deal", "contract", "mou",
                   "memorandum of understanding", "term sheet"])]

/-- PAT.contractAny. -/
def PAT_contractAny (s : String) : Bool :=
  hasW s ["contract", "award", "task order", "idiq", "grant", "funding",
          "purchase order", "po", "framework agreement", "letter of award", "loa"]

/-- PAT.preferredVendor. -/
def PAT_preferredVendor (s : String) : Bool :=
  hasW s ["preferred vendor", "preferred supplier", "preferred partner",
          "approved vendor"]

/-- PAT.pilotAny. -/
def PAT_pilotAny (s : String) : Bool :=
  hasW s ["pilot", "pilot program", "trial deployment", "proof-of-concept",
          "proof of concept", "proof-of concept", "proof of-concept", "poc"]

/-- PAT.govWords. -/
def PAT_govWords (s : String) : Bool :=
  hasW s ["nasa", "ussf", "space force", "dod", "department of defense",
          "army", "navy", "air force", "darpa", "barda", "hhs", "nih", "cms",
          "medicare", "va", "doe", "department of energy",
          "loan programs office", "lpo", "mod", "nhs", "european commission",
          "nist", "nsf"]

/-- PAT.govEquity. -/
def PAT_govEquity (s : String) : Bool :=
  rxI s (lps ["government", "dod", "department of defense", "hhs", "barda",
              "doe", "department of energy"])
    [(gapDot, lps ["preferred stock", "preferred equity", "equity",
                   "investment", "warrant", "warrants"])]

/-- Money group `\$\s?\d+(?:\.\d+)?\s*(?:million|billion|bn|mm|m)\b`
(dollar sign required, no leading boundary). -/
def dollarUnitPhrases : List Phrase :=
  ["million", "billion", "bn", "mm", "m"].map fun u =>
    tpn false true [tl "$", Tok.ws01, Tok.digits 1 none, Tok.optFrac, Tok.ws0, tl u]

/-- PAT.govLoan. -/
def PAT_govLoan (s : String) : Bool :=
  rxI s (lps ["department of energy", "doe", "loan programs office", "lpo"])
    [(gapDot, lps ["loan", "conditional commitment"]),
     (gapDot, dollarUnitPhrases)]

/-- PAT.earningsBeatGuideUp. -/
def PAT_earningsBeatGuideUp (s : String) : Bool :=
  rxI s (lps ["raise", "raises", "increases", "increased", "hike", "hikes"])
    [(gapDot, lps ["guidance", "outlook", "forecast"])] ||
  rxI s (lps ["beat", "beats"])
    [(gapDot, lps ["consensus", "estimates", "street", "expectations"])]

/-- PAT.reimbursementWin. -/
def PAT_reimbursementWin (s : String) : Bool :=
  rxI s (lps ["cms", "medicare"])
    [(gapDot,
      lps ["ntap",
           "new technology add-on payment", "new tech add-on payment",
           "new technology add on payment", "new tech add on payment",
           "transitional pass-through", "transitional pass through", "tpt",
           "reimbursement increase", "reimbursement raised",
           "reimbursement higher", "reimbursement set at"] ++
      [tp [tl "hcpcs", Tok.ws0, Tok.clsPlus "abcdefghijklmnopqrstuvwxyz0123456789".data],
       tp [tl "hcpcs", Tok.ws0, tl "code", Tok.ws0,
           Tok.clsPlus "abcdefghijklmnopqrstuvwxyz0123456789".data]])]

/-- PAT.indexInclusion. -/
def PAT_indexInclusion (s : String) : Bool :=
  rxI s (lps ["added", "to be added", "to join", "inclusion", "included"])
    [(gapDot,
      [tp [tl "russell", Tok.ws01, tl "2000"],
       tp [tl "russell", Tok.ws01, tl "3000"],
       tp [tl "russell", Tok.ws01, tl "microcap"],
       lp "msci",
       tp [tl "s&p", Tok.ws01, tl "500"],
       tp [tl "s&p", Tok.ws01, tl "400"],
       tp [tl "s&p", Tok.ws01, tl "600"],
       lp "s&p/tsx",
       tp [tl "s&p/tsx", Tok.wsOne, tl "composite"],
       lp "s&p dow jones indices",
       lp "ftse"])]

/-- PAT.uplist. -/
def PAT_uplist (s : String) : Bool :=
  rxI s (lps ["uplisting", "uplist", "approved to list", "approved for listing",
              "to list on"])
    [(gapDot, lps ["nasdaq", "nyse", "nyse american"])]

/-- PAT.listingCompliance. -/
def PAT_listingCompliance (s : String) : Bool :=
  rxI s (lps ["regain", "regained", "regains", "return to", "returns to",
              "back in"])
    [(gapDot, lps ["compliance"]),
     (gapDot, lps ["nasdaq", "nyse", "listing"])]

/-- PAT.specialDividend — same regex text as the scorer's. -/
def PAT_specialDividend (s : String) : Bool := scSpecialDiv s

/-- PAT.buyback. -/
def PAT_buyback (s : String) : Bool :=
  rxI s (lps ["share repurchase", "buyback", "issuer tender offer",
              "dutch auction"])
    [(gapDot, lps ["authorized", "authorization", "increase", "announces",
                   "announced", "commences", "commenced", "launches", "launched"])]

/-- PAT.debtReduce (note the literal expansions of
`repay(?:s|ment|s|ed)` and `retire(?:s|d|ment)`). -/
def PAT_debtReduce (s : String) : Bool :=
  rxI s (lps ["redeem", "redeems", "redeemed", "redeeming",
              "retires", "retired", "retirement",
              "repays", "repayment", "repayed",
              "extinguishes", "extinguishment"])
    [(gapDot, lps ["debt", "note", "notes", "debentures", "convertible notes",
                   "convertible debentures", "term loan", "credit facility"])]

/-- PAT.ch11Exit. -/
def PAT_ch11Exit (s : String) : Bool :=
  rxI s (lps ["emerge", "emerges", "emergence"])
    [(gapDot, [tp [tl "chapter", Tok.ws0, tl "11"], lp "bankruptcy"])] ||
  rxI s (lps ["plan of reorganization"])
    [(gapDot, lps ["confirmed", "confirmation"])]

/-- PAT.courtWin. -/
def PAT_courtWin (s : String) : Bool :=
  rxI s (lps ["court", "judge", "itc", "ptab"])
    [(gapDot, lps ["grant", "grants", "win", "wins", "injunction", "vacate",
                   "vacates", "stay", "stays", "exclusion order"])]

/-- PAT.courtDismiss. -/
def PAT_courtDismiss (s : String) : Bool :=
  rxI s
    (lps ["dismisses", "dismissed", "dismissal", "with prejudice"] ++
     [tp [tl "case ", Tok.ws0, tl "dismissed"],
      tp [tl "case is", Tok.ws0, tl "dismissed"],
      tp [tl "case was", Tok.ws0, tl "dismissed"]]) []

/-- PAT.legalSettlementRoyalties. -/
def PAT_legalSettlementRoyalties (s : String) : Bool :=
  rxI s (lps ["settlement", "settles"])
    [(gapDot, lps ["royalty", "royalties", "minimum payment", "minimum payments",
                   "licensing revenue", "lump-sum", "lump sum"])]

/-- PAT.memeOrInfluencer. -/
def PAT_memeOrInfluencer (s : String) : Bool :=
  hasW s ["roaring kitty", "keith gill", "meme stock", "wallstreetbets", "wsb",
          "jensen huang", "nvidia blog", "nvidia mention"]

/-- PAT.nameDropContext. -/
def PAT_nameDropContext (s : String) : Bool :=
  hasW s ["mention", "mentioned", "blog", "keynote", "showcase", "featured",
          "ecosystem", "catalog", "marketplace", "listing"]

/-- PAT.proxyAdvisor, PAT.voteAdminOnly, PAT.lawFirmPR,
PAT.securityIncidentUpdate, PAT.investorConfs, PAT.misinfo — identical
regex text to the scorer's versions. -/
def PAT_proxyAdvisor (s : String) : Bool := RX_PROXY_ADVISOR s

def PAT_voteAdminOnly (s : String) : Bool := RX_VOTE_ADMIN_ONLY s

def PAT_lawFirmPR (s : String) : Bool := RX_LAWFIRM s

def PAT_securityIncidentUpdate (s : String) : Bool := RX_SECURITY_UPDATE s

def PAT_investorConfs (s : String) : Bool := RX_INVESTOR_CONFS s

def PAT_misinfo (s : String) : Bool := scMisinfo s

/-- PAT.analystMedia. -/
def PAT_analystMedia (s : String) : Bool :=
  hasW s ["analyst", "media coverage", "initiate coverage", "initiates coverage",
          "upgrade", "upgrades", "downgrade", "downgrades", "price target",
          "research report", "buy rating", "sell rating", "neutral rating"]

/-- PAT.shelfOrATM — same regex text as the scorer's. -/
def PAT_shelfOrATM (s : String) : Bool := scShelfATM s

/-- PAT.plainDilution. -/
def PAT_plainDilution (s : String) : Bool :=
  hasW s ["securities purchase agreement", "registered direct", "pipe",
          "private placement", "unit financing", "equity offering",
          "warrant", "warrants"]

/-- PAT.antiDilutionPositive. -/
def PAT_antiDilutionPositive (s : String) : Bool :=
  rxI s (lps ["terminate", "terminates", "terminated", "withdraw", "withdraws",
              "withdrawn", "cancel", "cancels", "cancelled", "reduce",
              "reduces", "downsize", "downsized"])
    [(gapDot, lps (["offering", "registered direct", "atm"] ++ atTheMarketV ++
                   ["public offering", "securities purchase agreement"]))]

/-- PAT.cryptoTreasuryBuy. -/
def PAT_cryptoTreasuryBuy (s : String) : Bool :=
  rxI s (lps ["buy", "bought", "purchase", "purchases", "purchased",
              "acquire", "acquires", "acquired"])
    [(gapDot, lps ["bitcoin", "btc", "ethereum", "eth", "solana", "sol",
                   "link", "chainlink", "crypto", "cryptocurrency",
                   "token", "tokens"])]

/-- PAT.cryptoTreasuryDiscuss. -/
def PAT_cryptoTreasuryDiscuss (s : String) : Bool :=
  rxI s (lps ["treasury", "reserve", "policy", "program", "strategy"])
    [(gapDot, lps ["discuss", "discussion", "discussions", "approached",
                   "proposal", "term sheet", "non-binding", "non binding",
                   "indicative"]),
     (gapDot,
      ["million", "billion", "bn", "mm", "m"].flatMap fun u =>
        [tp [tl "$", Tok.digits 1 none, Tok.optFrac, Tok.ws0, tl u],
         tp [Tok.digits 1 none, Tok.optFrac, Tok.ws0, tl u]])]

/-- PAT.cryptoTreasuryInitiate. -/
def PAT_cryptoTreasuryInitiate (s : String) : Bool :=
  rxI s
    (lps ["launch", "launches", "launched", "initiate", "initiates",
          "initiated", "initiating", "adopt", "adopts", "adopted", "adopting",
          "establish", "establishes", "established", "establishing",
          "implement", "implements", "implemented", "implementing"] ++
     (["convert", "converts", "converted", "converting"].flatMap fun v =>
       [tp [tl v, Tok.ws1, tl "cash", Tok.ws1, tl "to"],
        tp [tl v, Tok.ws1, tl "cash", Tok.ws1, tl "into"],
        tp [tl v, Tok.ws1, tl "a cash", Tok.ws1, tl "to"],
        tp [tl v, Tok.ws1, tl "a cash", Tok.ws1, tl "into"],
        tp [tl v, Tok.ws1, tl "portion of cash", Tok.ws1, tl "to"],
        tp [tl v, Tok.ws1, tl "portion of cash", Tok.ws1, tl "into"]]))
    [(gapNoDot 120, lps ["bitcoin", "btc"]),
     (gapNoDot 120, lps ["treasury", "reserve"]),
     (gapNoDot 120, lps ["strategy", "program", "policy", "framework", "asset"])]

/-- PAT.patentGrant. -/
def PAT_patentGrant (s : String) : Bool :=
  rxI s
    (["u.s.", "u.s", "us.", "us"].map fun c =>
      tp [tl c, Tok.ws1, tl "patent"])
    [(gapDot, lps ["grant", "granted", "issue", "issued", "notice of allowance"])]

/-- PAT.ipoPrice. -/
def PAT_ipoPrice (s : String) : Bool :=
  rxI s (lps ["price", "prices", "priced"])
    [(gapDot, lps ["initial public offering", "ipo"])]

/-- PAT.ipoBeginTrade. -/
def PAT_ipoBeginTrade (s : String) : Bool :=
  rxI s
    (["begin", "begins", "commence", "commences"].map fun v =>
      tp [tl v, Tok.ws1, tl "trading"])
    [(gapDot, lps ["nasdaq", "nyse", "nyse american"])]

/-- PAT.nameTickerChange — same regex text as the scorer's. -/
def PAT_nameTickerChange (s : String) : Bool := RX_NAME_TICKER_CHANGE s

/-- PAT.rsWithUplist. -/
def PAT_rsWithUplist (s : String) : Bool :=
  rxI s (lps ["reversesplit", "reverse split", "reverse-split"])
    [(gapNoDot 120, lps ["uplist", "nasdaq", "nyse", "compliance plan",
                         "deficiency plan", "hearing panel"])]

/-- PAT.otcCERemoved. -/
def PAT_otcCERemoved (s : String) : Bool :=
  rxI s (lps ["caveat emptor", "ce"])
    [(gapDot, lps ["removed", "removal"])] ||
  rxI s
    (["resume", "resumes", "resumed"].map fun v =>
      tp [tl v, Tok.ws1, tl "trading"])
    [(gapDot, lps ["otc", "pink", "qb", "qx"])]

/-- PAT.goingConcernRemoved. -/
def PAT_goingConcernRemoved (s : String) : Bool :=
  rxI s (lps ["going concern", "going-concern"])
    [(gapDot, lps ["removed", "no longer", "eliminated", "lifted"])]

/-- PAT.auditCured. -/
def PAT_auditCured (s : String) : Bool :=
  rxI s (lps ["10-k", "10-q", "annual report", "quarterly report"])
    [(gapDot, lps ["filed", "re-filed", "become current", "becomes current",
                   "bring filings current", "brings filings current",
                   "cure delinquency", "cures delinquency"])]

/-- PAT.insiderBuy. -/
def PAT_insiderBuy (s : String) : Bool :=
  rxI s
    ([tp [tl "form", Tok.ws0, tl "4"]] ++
     lps ["purchase", "purchases", "buy", "buys"])
    [(gapDot, lps ["director", "officer", "ceo", "cfo", "insider", "management"])]

/-- PAT.insiderCluster. -/
def PAT_insiderCluster (s : String) : Bool :=
  rxI s (lps ["multiple", "several", "numerous"])
    [(gapDot,
      [tp [tl "form", Tok.ws0, tl "4"]] ++
      lps ["insider purchase", "insider purchases"])]

/-- PAT.toxicTerminated. -/
def PAT_toxicTerminated (s : String) : Bool :=
  rxI s (lps ["terminates", "terminated", "cancel", "cancels", "withdraw",
              "withdraws", "end", "ends"])
    [(gapDot, lps ["equity line", "eloc", "sepa", "s-3", "atm",
                   "convertible note", "convertible notes",
                   "convertible debentures", "toxic", "dilutive", "dilution"])]

/-- PAT.asReduced. -/
def PAT_asReduced (s : String) : Bool :=
  rxI s
    (["authorised", "authorized"].flatMap fun a =>
      ["share", "shares"].map fun sh =>
        tp [tl a, Tok.ws1, tl sh])
    [(gapDot, lps ["reduced", "reduces", "reduction", "cut", "decrease"])]

/-- PAT.noWarrantsNoRS. -/
def PAT_noWarrantsNoRS (s : String) : Bool :=
  hasW s ["no warrant", "no warrants", "no pre-funded warrant",
          "no pre-funded warrants", "no pre funded warrant",
          "no pre funded warrants", "no rights", "no reverse split",
          "without warrants", "without a reverse split"]

/-- PAT.distributionDeal. -/
def PAT_distributionDeal (s : String) : Bool :=
  rxI s (lps ["distribution", "distributor", "reseller", "channel partner",
              "wholesale"])
    [(gapDot, lps ["agreement", "deal", "contract"])]

/-- PAT.purchaseOrder. -/
def PAT_purchaseOrder (s : String) : Bool :=
  rxI s (lps ["purchase order", "po"])
    [(gapDot, lps ["received", "secured", "award", "awarded"])]

/-- PAT.retailChains. -/
def PAT_retailChains (s : String) : Bool :=
  hasW s ["walmart", "target", "costco", "best buy", "amazon", "home depot",
          "lowe's", "lowes", "walgreens", "cvs", "kroger", "tesco", "carrefour"]

/-- PAT.custodianshipRM. -/
def PAT_custodianshipRM (s : String) : Bool :=
  rxI s (lps ["custodianship", "receiver", "reverse merger", "rto",
              "business combination"])
    [(gapDot, lps ["granted", "approved", "definitive", "agreement"])]

/-- PAT.aiPivot. -/
def PAT_aiPivot (s : String) : Bool :=
  rxI s (lps ["ai", "artificial intelligence", "llm", "gpt"])
    [(gapDot, lps ["pivot", "strategy", "initiative", "platform", "integration",
                   "launch", "launches", "launched"])]

/-- PAT.projectFinance. -/
def PAT_projectFinance (s : String) : Bool :=
  rxI s (lps ["secure", "secures", "obtain", "obtains", "arrange", "arranges",
              "close", "closes", "execute", "executes", "sign", "signs"])
    [(gapNoDot 60,
      lps ["gold loan", "loan", "credit facility", "project financing",
           "project finance", "debt financing", "term loan", "royalty",
           "stream deal", "stream agreement", "streaming deal",
           "streaming agreement", "non-dilutive financing",
           "non dilutive financing", "non-dilutive funding",
           "non dilutive funding"] ++
      [tp [tl "royalty", Tok.ws1, tl "financing"]]),
     (gapNoDot 120,
      lps ["fund", "funding", "capex", "capital cost", "capital expenditure",
           "construction", "starter operation", "starter project",
           "heapleach", "heap-leach", "heap leach", "mine build",
           "mine construction"] ++
      [tp [tl "fully", Tok.ws0, tl "fund"]])]

/-- PAT.constructionDecision. -/
def PAT_constructionDecision (s : String) : Bool :=
  rxI s (lps ["approves", "approved", "board of directors approves",
              "board of directors approved"])
    [(gapNoDot 80, lps ["construction", "final investment decision", "fid",
                        "go-ahead", "go ahead", "build"])]

/-- PAT.productionStart (`begin(?:s|ning)` has no bare `begin`;
`commenc(?:es|ed|ing)` has no bare `commence`). -/
def PAT_productionStart (s : String) : Bool :=
  rxI s (lps ["commences", "commenced", "commencing", "begins", "beginning",
              "start", "starts", "started"])
    [(gapNoDot 80, lps ["production", "processing", "mining", "operation",
                        "operations", "heap-leach", "heap leach", "heapleach"])]

/-- PAT.permitGrant (the classify.ts variant, with the IBAMA/EIA/EIS words). -/
def PAT_permitGrant (s : String) : Bool :=
  rxI s (lps ["permit", "licence", "license", "environmental", "ibama",
              "ibama/semas", "eia", "eis", "concession"])
    [(gapNoDot 60, lps ["approved", "granted", "received", "obtained", "issued"])]

/-- PAT.royaltyStream. -/
def PAT_royaltyStream (s : String) : Bool :=
  rxI s (lps ["royalty", "stream", "streaming"])
    [(gapNoDot 60, lps ["agreement", "financing", "facility", "transaction",
                        "deal"])]

/-- PAT.feasStudy (the bare `feasibility ` alternative keeps its trailing
space from the source). -/
def PAT_feasStudy (s : String) : Bool :=
  rxI s
    (lps ["prefeasibility", "pre-feasibility", "pre feasibility",
          "feasibility study", "pfs", "dfs"] ++
     [lp "feasibility "])
    [(gapNoDot 60, lps ["released", "updated", "result", "results", "positive",
                        "economic", "economics"])]

/-- PAT.econBuzz. -/
def PAT_econBuzz (s : String) : Bool :=
  hasW s ["npv", "irr", "payback", "all-in sustaining cost",
          "all in sustaining cost", "aisc"]

/-- LARGE_DOLLARS (classify.ts) — same regex text as the scorer's
LARGE_DOLLAR_AMOUNT. -/
def LARGE_DOLLARS (s : String) : Bool := LARGE_DOLLAR_AMOUNT s

/-- SCALE. -/
def SCALE (s : String) : Bool :=
  hasW s ["multi-year", "multi year", "nationwide", "global",
          "enterprise-wide", "enterprise wide", "rollout"]

/-- Inline guard of the gov-contract rule:
`\b(continued production|follow[- ]on|option (exercise|exercised)|extension|renewal)\b`. -/
def govRoutineRx (s : String) : Bool :=
  hasW s ["continued production", "follow-on", "follow on", "option exercise",
          "option exercised", "extension", "renewal"]

/-- Inline `/fully\s*fund/i` (no word boundaries). -/
def fullyFundSub (s : String) : Bool :=
  rxI s [tpn false false [tl "fully", Tok.ws0, tl "fund"]] []

/-- Inline action-words test of the AI-pivot rule:
`/(launch|deploy|integrat|contract|order|revenue|customer|PO|purchase|binding)/i`
(plain substring containment, no boundaries). -/
def aiActionSub (s : String) : Bool :=
  containsAnyI s ["launch", "deploy", "integrat", "contract", "order",
                  "revenue", "customer", "po", "purchase", "binding"]

/-- Inline strong-action test of the great-PR safeguard. -/
def strongActionRx (s : String) : Bool :=
  hasW s ["definitive", "binding", "execute", "executed", "execution",
          "close", "closes", "closed", "commence", "commenced", "commencing",
          "approved", "granted", "awarded", "contract", "agreement", "loan",
          "facility", "financing", "offtake", "royalty", "stream"]

/-- Insert-or-accumulate into the per-call `Map<label, weight>`, preserving
first-insertion order (JS `Map` iteration order). -/
def setAdd : List (String × ℚ) → String → ℚ → List (String × ℚ)
  | [], l, w => [(l, w)]
  | (l', w') :: rest, l, w =>
    if l' == l then (l', w' + w) :: rest else (l', w') :: setAdd rest l w

def accumHits : List (String × ℚ) → List (String × ℚ) → List (String × ℚ)
  | acc, [] => acc
  | acc, (l, w) :: rest => accumHits (setAdd acc l w) rest

def getA (m : List (String × ℚ)) (l : String) : Option ℚ :=
  (m.find? (fun e => e.1 == l)).map (fun e => e.2)

def setA : List (String × ℚ) → String → ℚ → List (String × ℚ)
  | [], l, v => [(l, v)]
  | (l', w') :: rest, l, v =>
    if l' == l then (l', v) :: rest else (l', w') :: setA rest l v

def hasA (m : List (String × ℚ)) (l : String) : Bool := (getA m l).isSome

/-- First entry carrying the maximal weight, in insertion order: the head of
the stable descending sort `[...by.entries()].sort((a,b) => b[1]-a[1])[0]`. -/
def topEntry : List (String × ℚ) → Option (String × ℚ)
  | [] => none
  | e :: rest =>
    match topEntry rest with
    | none => some e
    | some b => if e.2 ≥ b.2 then some e else some b

/-- Abbreviation for a single conditional `push` call. -/
def hif (c : Bool) (l : String) (w : ℚ) : List (String × ℚ) :=
  if c then [(l, w)] else []

/-- Bio/regulatory pushes of `classifyOne` (wire-gated block plus the two
unconditional pushes that follow it). -/
def hitsBio (x : String) (isPR : Bool) : List (String × ℚ) :=
  hif (isPR && (PAT_approval x || PAT_ukca x)) "FDA_MARKETING_AUTH" 10 ++
  hif (isPR && PAT_adcom x) "FDA_ADCOM_POSITIVE" 8 ++
  hif (isPR && (PAT_pivotal x || PAT_topline x || PAT_midStageWin x))
    "PIVOTAL_TRIAL_SUCCESS" 9 ++
  hif (isPR && PAT_designation x) "REGULATORY_DESIGNATION" 6 ++
  hif (PAT_ndaAcceptOrPriority x) "PIVOTAL_TRIAL_SUCCESS" 6 ++
  hif (PAT_clinicalHoldLift x) "PIVOTAL_TRIAL_SUCCESS" 6

/-- M&A pushes of `classifyOne`. -/
def hitsMna (x : String) : List (String × ℚ) :=
  let binding := PAT_mnaBinding x || (PAT_mnaWillAcquire x && PAT_mnaPerShareOrValue x)
  let announce := PAT_mnaAnnounce x
  let nonbind := PAT_mnaNonBinding x
  let admin := PAT_mnaAdminOnly x
  let asset := PAT_mnaAssetOrProperty x
  let unsolicited := PAT_mnaUnsolicitedProposal x
  let hasPremium := PAT_mnaPremiumMention x
  hif (binding && !nonbind && !admin && !asset) "ACQUISITION_BUYOUT" 9 ++
  hif (announce && !asset) "ACQUISITION_BUYOUT" 7 ++
  hif (unsolicited && !admin && !asset) "ACQUISITION_BUYOUT" 6 ++
  hif (nonbind || admin || asset) "OTHER" 2 ++
  hif (PAT_strategicAltsOutcome x) "ACQUISITION_BUYOUT" 7 ++
  hif hasPremium "ACQUISITION_BUYOUT" 2

/-- Spin-off/distribution push. -/
def hitsSpin (x : String) : List (String × ℚ) :=
  hif (PAT_spinOffDist x) "RESTRUCTURING_OR_FINANCING" 6

/-- Government / partnership pushes of `classifyOne`. -/
def hitsGov (x : String) (isPR : Bool) : List (String × ℚ) :=
  let govContract := PAT_govWords x && PAT_contractAny x
  let nameDropOnly := TIER1_RX x &&
    !(PAT_partnershipAny x || PAT_contractAny x || PAT_dealSigned x ||
      PAT_preferredVendor x || PAT_pilotAny x) &&
    PAT_nameDropContext x
  let isPartnership := PAT_partnershipAny x || PAT_contractAny x ||
    PAT_dealSigned x || PAT_preferredVendor x ||
    (TIER1_RX x && (TIER1_SMALL_VERBS x || PAT_pilotAny x))
  (if isPR && govContract && !govRoutineRx x then [("MAJOR_GOV_CONTRACT", (8 : ℚ))]
   else if isPR && govContract then [("OTHER", (2 : ℚ))] else []) ++
  hif (PAT_govEquity x) "GOVERNMENT_EQUITY_OR_GRANT" 9 ++
  hif (PAT_govLoan x) "MAJOR_GOV_CONTRACT" 8 ++
  hif (isPartnership && !nameDropOnly) "TIER1_PARTNERSHIP"
    ((if TIER1_RX x then (7 : ℚ) else 5) +
     (if (isMaterialMicroDollar x).2 then 1 else 0)) ++
  hif (!isPartnership && nameDropOnly) "MEME_OR_INFLUENCER" 4

/-- Corporate / earnings / listing pushes. -/
def hitsCorp (x : String) : List (String × ℚ) :=
  let beatOrGuide := PAT_earningsBeatGuideUp x
  let bigKPI := swingToProfit x || hasBigPercentGrowth x
  hif (beatOrGuide || bigKPI) "EARNINGS_BEAT_OR_GUIDE_UP"
    (if beatOrGuide then 6 else 5) ++
  hif (PAT_indexInclusion x) "INDEX_INCLUSION" 3 ++
  hif (PAT_uplist x) "UPLISTING_TO_NASDAQ" 6 ++
  hif (PAT_listingCompliance x) "UPLISTING_TO_NASDAQ" 6

/-- Reimbursement / dividend / buyback / debt / bankruptcy-exit pushes. -/
def hitsPolicy (x : String) : List (String × ℚ) :=
  hif (PAT_reimbursementWin x) "POLICY_OR_POLITICS_TAILWIND" 6 ++
  hif (PAT_specialDividend x) "RESTRUCTURING_OR_FINANCING" 7 ++
  hif (PAT_buyback x) "RESTRUCTURING_OR_FINANCING"
    ((6 : ℚ) + (if (extractDollars x).getD 0 ≥ 10 then 1 else 0)) ++
  hif (PAT_debtReduce x) "RESTRUCTURING_OR_FINANCING" 5 ++
  hif (PAT_ch11Exit x) "RESTRUCTURING_OR_FINANCING" 6

/-- Legal / meme pushes. -/
def hitsLegal (x : String) : List (String × ℚ) :=
  hif (PAT_courtWin x) "COURT_WIN_INJUNCTION" 6 ++
  hif (PAT_courtDismiss x) "COURT_WIN_INJUNCTION" 5 ++
  hif (PAT_legalSettlementRoyalties x) "COURT_WIN_INJUNCTION" 5 ++
  hif (PAT_memeOrInfluencer x) "MEME_OR_INFLUENCER" 6

/-- Crypto-treasury pushes. -/
def hitsCrypto (x : String) : List (String × ℚ) :=
  hif (PAT_cryptoTreasuryBuy x) "CRYPTO_OR_AI_TREASURY_PIVOT" 7 ++
  hif (PAT_cryptoTreasuryDiscuss x) "CRYPTO_OR_AI_TREASURY_PIVOT" 6 ++
  hif (PAT_cryptoTreasuryInitiate x) "CRYPTO_OR_AI_TREASURY_PIVOT"
    ((7 : ℚ) + (if (isMaterialMicroDollar x).2 then 1 else 0))

/-- IPO, positive-financing and patent pushes. -/
def hitsIpoFin (x : String) (isPR : Bool) : List (String × ℚ) :=
  hif (isPR && (PAT_ipoPrice x || PAT_ipoBeginTrade x)) "IPO_DEBUT_POP" 6 ++
  hif (PAT_antiDilutionPositive x) "TOXIC_FINANCING_TERMINATED" 7 ++
  hif (PAT_noWarrantsNoRS x) "DILUTION_FREE_INVESTMENT" 7 ++
  hif (PAT_patentGrant x) "OTHER" 1

/-- Micro/OTC additive pushes. -/
def hitsMicro (x : String) : List (String × ℚ) :=
  hif (PAT_rsWithUplist x) "REVERSE_SPLIT_UPLIST_PATH" 7 ++
  hif (PAT_otcCERemoved x) "CE_REMOVAL_OR_RESUME_TRADING" 8 ++
  hif (PAT_goingConcernRemoved x) "GOING_CONCERN_REMOVED" 6 ++
  hif (PAT_auditCured x) "AUDIT_COMPLETED_FILINGS_CURED" 6 ++
  hif (PAT_custodianshipRM x) "CUSTODIANSHIP_OR_RM_DEAL" 7 ++
  (if PAT_insiderCluster x then [("INSIDER_BUY_CLUSTER", (7 : ℚ))]
   else if PAT_insiderBuy x then [("INSIDER_BUY_CLUSTER", (5 : ℚ))] else []) ++
  hif (PAT_toxicTerminated x) "TOXIC_FINANCING_TERMINATED" 7 ++
  hif (PAT_asReduced x) "AUTHORIZED_SHARES_REDUCED" 6

/-- Distribution / purchase-order push. -/
def hitsOrders (x : String) : List (String × ℚ) :=
  if PAT_distributionDeal x || PAT_purchaseOrder x then
    let mm := isMaterialMicroDollar x
    let namedChains := PAT_retailChains x
    let w := (5 : ℚ) + (if mm.1 then 1 else 0) + (if mm.2 then 1 else 0) +
      (if namedChains then 1 else 0)
    [((if namedChains then "DISTRIBUTION_AGREEMENT_MATERIAL"
       else "LARGE_ORDER_RELATIVE"), w)]
  else []

/-- AI-pivot push. -/
def hitsPivots (x : String) : List (String × ℚ) :=
  hif (PAT_aiPivot x && aiActionSub x) "CRYPTO_OR_AI_TREASURY_PIVOT" 6

/-- Mining feasibility / royalty / project-finance pushes. -/
def hitsMining (x : String) (isPR : Bool) : List (String × ℚ) :=
  hif (PAT_feasStudy x && PAT_econBuzz x) "RESTRUCTURING_OR_FINANCING"
    ((5 : ℚ) + (if (isMaterialMicroDollar x).1 then 1 else 0)) ++
  hif (PAT_royaltyStream x) "RESTRUCTURING_OR_FINANCING"
    ((6 : ℚ) + (if (isMaterialMicroDollar x).2 then 2
                else if (isMaterialMicroDollar x).1 then 1 else 0)) ++
  (if PAT_projectFinance x || PAT_constructionDecision x ||
      PAT_productionStart x || PAT_permitGrant x then
    let mm := isMaterialMicroDollar x
    let w0 := (7 : ℚ) + (if isPR then 1 else 0) +
      (if mm.2 then 2 else if mm.1 then 1 else 0)
    let w1 := if PAT_projectFinance x && PAT_constructionDecision x then w0 + 1 else w0
    let w2 := if PAT_productionStart x then w1 + 1 else w1
    [("RESTRUCTURING_OR_FINANCING", min 9 w2)]
  else [])

/-- The ordered positive-rule `push` calls of `classifyOne` (classify.ts),
as the list of `(label, weight)` hits, including the great-PR safeguard that
fires only when no other rule pushed anything. -/
def classifyHits (x : String) (isPR : Bool) : List (String × ℚ) :=
  let hits0 := hitsBio x isPR ++ hitsMna x ++ hitsSpin x ++ hitsGov x isPR ++
    hitsCorp x ++ hitsPolicy x ++ hitsLegal x ++ hitsCrypto x ++
    hitsIpoFin x isPR ++ hitsMicro x ++ hitsOrders x ++ hitsPivots x ++
    hitsMining x isPR
  let safeguard :=
    if hits0.isEmpty && isPR then
      let mm := isMaterialMicroDollar x
      if (mm.1 || fullyFundSub x) && strongActionRx x then
        [("RESTRUCTURING_OR_FINANCING",
          min 8 ((6 : ℚ) + (if mm.2 then 2 else if mm.1 then 1 else 0)))]
      else []
    else []
  hits0 ++ safeguard

/-- The hit-combination, synergy and aggregation tail of `classifyOne`. -/
def classifyCombine (x : String) (hits : List (String × ℚ)) : String × ℚ :=
  if hits.isEmpty then ("OTHER", 0) else
  let by0 := accumHits [] hits
  let by1 :=
    if hasA by0 "PIVOTAL_TRIAL_SUCCESS" && hasA by0 "FDA_MARKETING_AUTH"
    then setA by0 "FDA_MARKETING_AUTH" ((getA by0 "FDA_MARKETING_AUTH").getD 0 + 3)
    else by0
  let hasScaleMoney := LARGE_DOLLARS x || SCALE x || (isMaterialMicroDollar x).1
  let by2 :=
    if (hasA by1 "TIER1_PARTNERSHIP" || hasA by1 "MAJOR_GOV_CONTRACT" ||
        hasA by1 "GOVERNMENT_EQUITY_OR_GRANT") && hasScaleMoney
    then setA by1 "OTHER" ((getA by1 "OTHER").getD 0 + 2)
    else by1
  let by3 :=
    if hasA by2 "REVERSE_SPLIT_UPLIST_PATH" &&
       (hasA by2 "AUDIT_COMPLETED_FILINGS_CURED" ||
        containsAnyI x ["deficiency plan accepted", "panel grants"])
    then setA by2 "REVERSE_SPLIT_UPLIST_PATH"
      ((getA by2 "REVERSE_SPLIT_UPLIST_PATH").getD 0 + 2)
    else by2
  let by4 :=
    if (hasA by3 "LARGE_ORDER_RELATIVE" || hasA by3 "DISTRIBUTION_AGREEMENT_MATERIAL") &&
       PAT_retailChains x
    then
      let key := if hasA by3 "DISTRIBUTION_AGREEMENT_MATERIAL"
        then "DISTRIBUTION_AGREEMENT_MATERIAL" else "LARGE_ORDER_RELATIVE"
      setA by3 key ((getA by3 key).getD 0 + 1)
    else by3
  let total := (by4.map (fun e => e.2)).sum
  let strongCatalyst :=
    (getA by4 "ACQUISITION_BUYOUT").getD 0 ≥ 8 ∨
    (getA by4 "FDA_MARKETING_AUTH").getD 0 ≥ 8 ∨
    (getA by4 "PIVOTAL_TRIAL_SUCCESS").getD 0 ≥ 8 ∨
    (getA by4 "MAJOR_GOV_CONTRACT").getD 0 ≥ 8 ∨
    (getA by4 "RESTRUCTURING_OR_FINANCING").getD 0 ≥ 7 ∨
    (getA by4 "UPLISTING_TO_NASDAQ").getD 0 ≥ 6 ∨
    (getA by4 "REVERSE_SPLIT_UPLIST_PATH").getD 0 ≥ 7 ∨
    (getA by4 "CE_REMOVAL_OR_RESUME_TRADING").getD 0 ≥ 7 ∨
    (getA by4 "INSIDER_BUY_CLUSTER").getD 0 ≥ 7 ∨
    (getA by4 "TOXIC_FINANCING_TERMINATED").getD 0 ≥ 7 ∨
    (getA by4 "LARGE_ORDER_RELATIVE").getD 0 ≥ 6 ∨
    (getA by4 "DISTRIBUTION_AGREEMENT_MATERIAL").getD 0 ≥ 6
  if total ≤ 0 ∧ ¬strongCatalyst then ("OTHER", 0) else
  match topEntry by4 with
  | some e => e
  | none => ("OTHER", 0)

/-- classify.ts `classifyOne`: hard guards and early exits, then the positive
rules and the aggregation. -/
def classifyOne (it : Item) : String × ℚ :=
  let title := normalize (it.title.getD "")
  let body := normalize (jsOr2 it.summary it.text)
  let x := title ++ "\n" ++ body
  let url := it.url
  if PAT_misinfo x then ("OTHER", 0) else
  if PAT_securityIncidentUpdate x then ("OTHER", 0) else
  if PAT_awardsPR x then ("OTHER", 0) else
  if PAT_nameTickerChange x then ("OTHER", 0) else
  if (PAT_proxyAdvisor x || PAT_voteAdminOnly x) && !PAT_mnaBinding x
  then ("OTHER", 0) else
  if PAT_investorConfs x then ("OTHER", 0) else
  if PAT_lawFirmPR x then ("OTHER", 0) else
  if PAT_analystMedia x then ("OTHER", 0) else
  if PAT_typoErratum x then ("OTHER", 0) else
  if PAT_plainDilution x &&
     !(containsAnyI x ["premium", "above-market", "above market"] ||
       PAT_noWarrantsNoRS x || PAT_antiDilutionPositive x || PAT_rsWithUplist x)
  then ("OTHER", 0.1) else
  classifyCombine x (classifyHits x (isWirePR_classify url x))

/-- classify.ts exported `classify`. -/
def classify (items : List Item) : List Item :=
  items.map fun it =>
    let r := classifyOne it
    { it with klass := r.1, score := r.2 }

end NeonPR

/-! ## Claims C5, C6, C8, C9 — the scorer and classifier -/

namespace NeonPR

/-- The capitalization-tier bump is always between 0 and 0.18. -/
lemma capTierBonus_bounds (it : Item) : 0 ≤ capTierBonus it ∧ capTierBonus it ≤ 0.18 := by
  unfold capTierBonus
  cases mcMillions it with
  | none => dsimp only; split_ifs <;> norm_num
  | some mc => dsimp only; split_ifs <;> norm_num

/-- The final clamp never raises a value above any bound `c ≥ 0` that already
dominates its argument. -/
lemma clamp01q_le_of_le (q c : ℚ) (h0 : 0 ≤ c) (h : q ≤ c) : clamp01q q ≤ c := by
  unfold clamp01q
  exact max_le h0 (le_trans (min_le_right 1 q) h)

/-- Closed form of the capitalization-tier bump for a known positive market
cap below $100M: +0.18 under $10M, +0.14 under $25M, +0.10 under $100M. -/
lemma capTierBonus_of_known (it : Item) (m : ℚ) (hm : it.marketCap = some m)
    (hp : 0 < m) (hl : m < 100000000) :
    capTierBonus it =
      if m < 10000000 then (0.18 : ℚ) else if m < 25000000 then 0.14 else 0.1 := by
  have hm6 : (0:ℚ) < 1000000 := by norm_num
  have h0 : m / 1000000 ≠ 0 := ne_of_gt (div_pos hp hm6)
  have e10 : m / 1000000 < 10 ↔ m < 10000000 := by
    rw [div_lt_iff₀ hm6]; norm_num
  have e25 : m / 1000000 < 25 ↔ m < 25000000 := by
    rw [div_lt_iff₀ hm6]; norm_num
  have e100 : m / 1000000 < 100 ↔ m < 100000000 := by
    rw [div_lt_iff₀ hm6]; norm_num
  unfold capTierBonus mcMillions
  rw [hm]
  simp only [Option.map_some']
  by_cases c1 : m < 10000000
  · rw [if_pos ⟨h0, e10.mpr c1⟩, if_pos c1]
  · rw [if_neg (fun hh => c1 (e10.mp hh.2)), if_neg c1]
    by_cases c2 : m < 25000000
    · rw [if_pos ⟨h0, e25.mpr c2⟩, if_pos c2]
    · rw [if_neg (fun hh => c2 (e25.mp hh.2)), if_neg c2,
          if_pos ⟨h0, e100.mpr hl⟩]

/-- Claim C5: for every input item — any title/summary text including the
empty string and extreme dollar magnitudes, any category label, any market
cap — the materiality scorer's output score lies within [0, 1].  Either the
misinformation kill writes a literal 0, or the final
`Math.max(0, Math.min(1, s))` clamp applies to whatever the adjustment
chain produced. -/
theorem claim_C5_score_in_unit_interval (it : Item) :
    0 ≤ (scoreOne it).score ∧ (scoreOne it).score ≤ 1 := by
  by_cases h : scMisinfo (it.title.getD "" ++ " " ++ it.summary.getD "") = true
  · simp only [scoreOne, h, if_true]
    norm_num
  · simp only [scoreOne, h, if_false, clamp01q]
    exact ⟨le_max_left 0 _, max_le (by norm_num) (min_le_left 1 _)⟩

/-- Witness for C5 at the empty item. -/
theorem claim_C5_score_in_unit_interval_witness :
    0 ≤ (scoreOne ({ } : Item)).score ∧ (scoreOne ({ } : Item)).score ≤ 1 :=
  claim_C5_score_in_unit_interval ({ } : Item)

/-- Claim C6: any input whose text matches the retraction/misinformation
marker is classified OTHER with confidence 0 (the classifier's misinfo
guard is its first test), and is scored 0 by the scorer (whose kill-switch
precedes the baseline and every subsequent adjustment, so nothing can
override it).  The classifier matches on normalized title+body, the scorer
on the raw title+summary blob; the hypotheses state the respective
matches. -/
theorem claim_C6_misinfo_kill (it : Item)
    (hc : PAT_misinfo (normalize (it.title.getD "") ++ "\n" ++
      normalize (jsOr2 it.summary it.text)) = true)
    (hs : scMisinfo (it.title.getD "" ++ " " ++ it.summary.getD "") = true) :
    classifyOne it = ("OTHER", 0) ∧ (scoreOne it).score = 0 := by
  constructor
  · simp only [classifyOne, hc, if_true]
  · simp only [scoreOne, hs, if_true]

/-- Witness for C6 at a concrete retraction headline. -/
theorem claim_C6_misinfo_kill_witness :
    (PAT_misinfo (normalize ((({ title := some "Company retracts press release" } : Item).title).getD "") ++ "\n" ++
       normalize (jsOr2 ({ title := some "Company retracts press release" } : Item).summary
         ({ title := some "Company retracts press release" } : Item).text)) = true) ∧
    (scMisinfo ((({ title := some "Company retracts press release" } : Item).title).getD "" ++ " " ++
       (({ title := some "Company retracts press release" } : Item).summary).getD "") = true) ∧
    (classifyOne { title := some "Company retracts press release" } = ("OTHER", 0) ∧
     (scoreOne ({ title := some "Company retracts press release" } : Item)).score = 0) :=
  ⟨by decide, by decide,
   claim_C6_misinfo_kill { title := some "Company retracts press release" } (by decide) (by decide)⟩

/-- Claim C8 counterexample: the four-tier step function is NOT monotone in
market cap — a known $50M cap lands in the `< 100` tier (+0.10) while the
larger $500M cap falls through to the `isSmallCap` branch (+0.14), so the
smaller cap receives a strictly smaller bonus; and an unknown market cap
(`!!mc` falsy) receives +0, not a conservative mid-tier default. -/
theorem claim_C8_counterexample :
    capTierBonus { marketCap := some 50000000 } <
      capTierBonus { marketCap := some 500000000 } ∧
    capTierBonus ({ } : Item) = 0 := by
  constructor
  · norm_num [capTierBonus, mcMillions]
  · norm_num [capTierBonus, mcMillions]

/-- Claim C8 amended: restricted to known positive market caps below $100M
the tier bonus is antitone (a larger cap never gets a larger bonus), and an
unknown market cap receives no bonus at all. -/
theorem claim_C8_amended (it it2 u : Item) (m m2 : ℚ)
    (h1 : it.marketCap = some m) (h2 : it2.marketCap = some m2)
    (hp : 0 < m) (hle : m ≤ m2) (hlt : m2 < 100000000)
    (hu : u.marketCap = none) :
    capTierBonus it2 ≤ capTierBonus it ∧ capTierBonus u = 0 := by
  constructor
  · rw [capTierBonus_of_known it m h1 hp (lt_of_le_of_lt hle hlt),
        capTierBonus_of_known it2 m2 h2 (lt_of_lt_of_le hp hle) hlt]
    split_ifs <;> linarith
  · unfold capTierBonus mcMillions
    rw [hu]
    simp only [Option.map_none', Option.getD_none]
    norm_num

/-- Witness for the amended C8 at $5M ≤ $50M and an unknown cap. -/
theorem claim_C8_amended_witness :
    ({ marketCap := some 5000000 } : Item).marketCap = some 5000000 ∧
    ({ marketCap := some 50000000 } : Item).marketCap = some 50000000 ∧
    (0:ℚ) < 5000000 ∧ (5000000:ℚ) ≤ 50000000 ∧ (50000000:ℚ) < 100000000 ∧
    ({ } : Item).marketCap = none ∧
    (capTierBonus { marketCap := some 50000000 } ≤ capTierBonus { marketCap := some 5000000 } ∧
     capTierBonus ({ } : Item) = 0) :=
  ⟨rfl, rfl, by norm_num, by norm_num, by norm_num, rfl,
   claim_C8_amended _ _ _ _ _ rfl rfl (by norm_num) (by norm_num) (by norm_num) rfl⟩

set_option maxHeartbeats 1600000 in
/-- Claim C9 counterexample: for the single-symbol analyst-note item the
classifier does return OTHER, but the final score is 0.19, not ≤ 0.16: the
analyst-noise cap `min s 0.16` is applied at step 2, yet the single-symbol
bump (+0.03) is added afterwards, so the cap does not bound the final
score. -/
theorem claim_C9_counterexample :
    classifyOne { title := some "initiates coverage with a Buy rating and $10 price target", symbols := ["ABC"] } = ("OTHER", 0) ∧
    (scoreOne { title := some "initiates coverage with a Buy rating and $10 price target", symbols := ["ABC"] }).score = 0.19 ∧
    ¬ (scoreOne { title := some "initiates coverage with a Buy rating and $10 price target", symbols := ["ABC"] }).score ≤ 0.16 := by
  have hv : (scoreOne { title := some "initiates coverage with a Buy rating and $10 price target", symbols := ["ABC"] }).score = 0.19 := by
    simp +decide only [scoreOne]
    norm_num [BASELINE, capTierBonus, mcMillions, clamp01q, min_def, max_def]
  refine ⟨by decide, hv, ?_⟩
  rw [hv]
  norm_num

set_option maxHeartbeats 1600000 in
/-- Claim C9 amended: for any item carrying that analyst-note text the
category is OTHER and the final score equals
`clamp(0.16 + capTierBonus + (0.03 if exactly one symbol))`, hence is at
most 0.37; it is ≤ 0.16 exactly when no bump applies. -/
theorem claim_C9_amended (syms : List String) (mc : Option ℚ) :
    classifyOne { title := some "initiates coverage with a Buy rating and $10 price target", symbols := syms, marketCap := mc } = ("OTHER", 0) ∧
    (scoreOne { title := some "initiates coverage with a Buy rating and $10 price target", symbols := syms, marketCap := mc }).score =
      clamp01q ((0.16 : ℚ) + capTierBonus { title := some "initiates coverage with a Buy rating and $10 price target", symbols := syms, marketCap := mc } +
        (if syms.length == 1 then (0.03 : ℚ) else 0)) ∧
    (scoreOne { title := some "initiates coverage with a Buy rating and $10 price target", symbols := syms, marketCap := mc }).score ≤ 0.37 := by
  have hb := capTierBonus_bounds { title := some "initiates coverage with a Buy rating and $10 price target", symbols := syms, marketCap := mc }
  have heq : (scoreOne { title := some "initiates coverage with a Buy rating and $10 price target", symbols := syms, marketCap := mc }).score =
      clamp01q ((0.16 : ℚ) + capTierBonus { title := some "initiates coverage with a Buy rating and $10 price target", symbols := syms, marketCap := mc } +
        (if syms.length == 1 then (0.03 : ℚ) else 0)) := by
    cases hsym : syms.length == 1 with
    | true =>
      simp +decide only [scoreOne, hsym]
      norm_num [BASELINE, min_def]
    | false =>
      simp +decide only [scoreOne, hsym]
      norm_num [BASELINE, min_def]
  refine ⟨by simp +decide only [classifyOne], heq, ?_⟩
  rw [heq]
  apply clamp01q_le_of_le
  · norm_num
  · have hs : (if syms.length == 1 then (0.03:ℚ) else 0) ≤ 0.03 := by
      split <;> norm_num
    linarith [hb.1, hb.2, hs]

end NeonPR

/-! ## Enrichment (src/pipeline/llmCheck.ts)

The remote LLM call itself is outside the model: what is embedded is the
deterministic remainder of `runLlmCheck` — the JSON sanitizer
(`sanitizeModelJSON`), the local gate recomputation, the OTC calibration
(`calibrateWithOTCHeuristics`), and the final YES/SPECULATIVE/PASS
decision.  The parsed remote response is an explicit JSON tree (`Json`),
and the market-cap provider lookup is an `Option ℚ` parameter. -/

namespace NeonPR
namespace LLM

/-- A parsed JSON value.  JS `undefined` and `null` are both `Json.null`:
at every use below the two behave identically (`?.` and `??` treat both as
missing, both are falsy, and `Number(null) = 0` versus
`Number(undefined) = NaN` clamp to the same 0 at the only numeric
call sites). -/
inductive Json where
  | null : Json
  | bool : Bool → Json
  | num : ℚ → Json
  | str : String → Json
  | arr : List Json → Json
  | obj : List (String × Json) → Json

/-- `x?.k`: object member lookup; on anything else (including null) the
optional chain yields undefined, i.e. `Json.null`. -/
def jget (j : Json) (k : String) : Json :=
  match j with
  | Json.obj kvs => (((kvs.find? fun kv => kv.1 == k).map fun kv => kv.2).getD Json.null)
  | _ => Json.null

/-- `a ?? b`. -/
def jsNullish (a b : Json) : Json :=
  match a with
  | Json.null => b
  | _ => a

/-- JS truthiness `!!x`.  (`NaN`, the only other falsy number, has no ℚ
representative and cannot be stored in a `Json.num`.) -/
def jtruthy : Json → Bool
  | Json.null => false
  | Json.bool b => b
  | Json.num q => decide (q ≠ 0)
  | Json.str s => decide (s ≠ "")
  | Json.arr _ => true
  | Json.obj _ => true

/-- Full-string numeric literal, for `Number(string)`: optional sign,
digits with optional fraction, optional exponent, and nothing after;
`none` models `NaN`.  (Hex/binary literals and `Infinity` never occur in
this pipeline's data.) -/
def numFullQ (t : String) : Option ℚ :=
  let signAndRest : ℚ × List Char :=
    match t.data with
    | '-' :: r => (-1, r)
    | '+' :: r => (1, r)
    | r => (1, r)
  let sign := signAndRest.1
  let cs := signAndRest.2
  let ip := cs.takeWhile Char.isDigit
  let cs2 := cs.drop ip.length
  let fracAndRest : List Char × List Char :=
    match cs2 with
    | '.' :: r => (r.takeWhile Char.isDigit, r.drop (r.takeWhile Char.isDigit).length)
    | _ => ([], cs2)
  let fp := fracAndRest.1
  let cs3 := fracAndRest.2
  if ip.isEmpty && fp.isEmpty then none
  else
    let base : ℚ := (digitsValL ip : ℚ) + (digitsValL fp : ℚ) / ((10 : ℚ) ^ fp.length)
    let expAndRest : (Bool × Nat) × List Char :=
      match cs3 with
      | e :: r =>
        if e == 'e' || e == 'E' then
          match r with
          | '-' :: r2 =>
            let d := r2.takeWhile Char.isDigit
            if d.isEmpty then ((false, 0), e :: r) else ((true, digitsValL d), r2.drop d.length)
          | '+' :: r2 =>
            let d := r2.takeWhile Char.isDigit
            if d.isEmpty then ((false, 0), e :: r) else ((false, digitsValL d), r2.drop d.length)
          | r2 =>
            let d := r2.takeWhile Char.isDigit
            if d.isEmpty then ((false, 0), e :: r) else ((false, digitsValL d), r2.drop d.length)
        else ((false, 0), cs3)
      | [] => ((false, 0), [])
    if expAndRest.2.isEmpty then
      some (if expAndRest.1.1 then sign * base / ((10 : ℚ) ^ expAndRest.1.2)
            else sign * base * ((10 : ℚ) ^ expAndRest.1.2))
    else none

/-- JS `Number(x)` on the model (`none` = `NaN`): numbers pass through,
booleans are 0/1, null is 0, a string is trimmed and parsed as a
full-string numeric literal (empty → 0).  Array and object coercion is
abstracted to `NaN` (the schema never supplies them where `Number` is
used). -/
def jsNumber : Json → Option ℚ
  | Json.null => some 0
  | Json.bool b => some (if b then 1 else 0)
  | Json.num q => some q
  | Json.str s =>
    let t := jsTrim s
    if t == "" then some 0 else numFullQ t
  | Json.arr _ => none
  | Json.obj _ => none

/-- The sanitizer's `clamp01`:
`Number.isFinite(Number(n)) ? Math.max(0, Math.min(1, Number(n))) : 0`. -/
def clamp01 (n : Json) : ℚ :=
  match jsNumber n with
  | some q => max 0 (min 1 q)
  | none => 0

/-- Remove the first occurrence of `w` (JS `s.replace(w, "")`). -/
def removeFirstSub : List Char → List Char → List Char
  | [], _ => []
  | c :: r, w =>
    match dropLit (c :: r) w with
    | some rest => rest
    | none => c :: removeFirstSub r w

/-- JS `String(x)` at the sanitizer's call sites: null renders as
`"null"` (all uses go through `?? fallback` first, so this never
surfaces), booleans as `"true"`/`"false"`; numeric, array and object
rendering is abstracted to `"#"`, which — like the digit strings and
joined lists JS would produce here — equals none of the literals the
results are compared against. -/
def jsToStr : Json → String
  | Json.null => "null"
  | Json.bool b => if b then "true" else "false"
  | Json.str s => s
  | Json.num _ => "#"
  | Json.arr _ => "#"
  | Json.obj _ => "#"

/-- llmCheck.ts `parsePctAny` (`none` models `NaN`): null/undefined → NaN;
a number x is `x ≤ 1 ? x*100 : x`; a string is trimmed (empty → NaN), a
trailing `%` noted, the first `%` removed, the rest `parseFloat`ed, and a
bare number ≤ 1 scaled by 100.  Booleans stringify to text `parseFloat`
rejects; arrays/objects are abstracted to `NaN`. -/
def parsePctAny : Json → Option ℚ
  | Json.null => none
  | Json.num q => some (if q ≤ 1 then q * 100 else q)
  | Json.str x =>
    let s := jsTrim x
    if s == "" then none
    else
      let hasPct := s.endsWith "%"
      match parseFloatQ (String.mk (removeFirstSub s.data ['%'])) with
      | none => none
      | some n => some (if hasPct then n else if n ≤ 1 then n * 100 else n)
  | _ => none

/-- llmCheck.ts `bucketFromP90`. -/
def bucketFromP90 (p90 : ℚ) : String :=
  if p90 ≥ 500 then "500%+"
  else if p90 ≥ 300 then "300-500%"
  else if p90 ≥ 150 then "150-300%"
  else if p90 ≥ 80 then "80-150%"
  else if p90 ≥ 40 then "40-80%"
  else if p90 ≥ 20 then "20-40%"
  else if p90 ≥ 10 then "10-20%"
  else if p90 ≥ 5 then "5-10%"
  else "<5%"

/-- The `BUCKETS` list of the sanitizer. -/
def BUCKETS : List String :=
  ["<5%", "5-10%", "10-20%", "20-40%", "40-80%", "80-150%", "150-300%",
   "300-500%", "500%+"]

structure ExpectedMove where
  p50 : ℚ
  p90 : ℚ
  bucket : String

structure LlmEstimation where
  label : String
  catalyst_strength : ℚ
  expected_move : ExpectedMove
  confidence : String

structure Gates where
  isWire : Bool
  hasNamedCounterparty : Bool
  hasQuantDetails : Bool
  hasIndependentCorroboration : Bool
  tickerVerified : Bool
  redFlagsDetected : Bool

structure ImpactScoreCard where
  materiality : ℚ
  bindingLevel : ℚ
  counterpartyQuality : ℚ
  specificity : ℚ
  corroboration : ℚ
  executionRisk : ℚ
  total : ℚ

structure SanitizedDecision where
  invest : Json
  gates : Gates

structure SanitizedModel where
  est : LlmEstimation
  decision : SanitizedDecision
  impact : Option ImpactScoreCard
  price : Option ℚ

/-- llmCheck.ts `sanitizeModelJSON`, restricted to the fields the pipeline
reads downstream (`est`, `decision`, `impact`, `price`); the clipped
string lists (`pros`, `cons`, `red_flags`, `sources`, `reasons`, `debug`)
and the 160/240/300-char text truncations are outside the model. -/
def sanitizeModelJSON (raw : Json) : SanitizedModel :=
  let em := jget (jget raw "est") "expected_move"
  let p50a := (parsePctAny (jget em "p50")).getD 0
  let p90a := (parsePctAny (jget em "p90")).getD p50a
  let p50 := max 0 (min 1000 p50a)
  let p90 := max (p50 + 1) (min 1000 p90a)
  let bucket :=
    match jget em "bucket" with
    | Json.str b => if BUCKETS.contains b then b else bucketFromP90 p90
    | _ => bucketFromP90 p90
  let confRawL := String.mk (lowerList (jsToStr
    (jsNullish (jget (jget raw "est") "confidence") (Json.str ""))))
  let confidence :=
    if confRawL == "high" then "high"
    else if confRawL == "medium" then "medium"
    else "low"
  let catalyst_strength :=
    match jsNumber (jget (jget raw "est") "catalyst_strength") with
    | some q => max 0 (min 1 q)
    | none => 0
  let label := jsToStr (jsNullish (jget (jget raw "est") "label") (Json.str "OTHER"))
  let price : Option ℚ :=
    match jget (jget raw "basics") "price" with
    | Json.null => none
    | pj => jsNumber pj
  let g := jget (jget raw "decision") "gates"
  let gates : Gates :=
    { isWire := jtruthy (jget g "isWire"),
      hasNamedCounterparty := jtruthy (jget g "hasNamedCounterparty"),
      hasQuantDetails := jtruthy (jget g "hasQuantDetails"),
      hasIndependentCorroboration := jtruthy (jget g "hasIndependentCorroboration"),
      tickerVerified := jtruthy (jget g "tickerVerified"),
      redFlagsDetected := jtruthy (jget g "redFlagsDetected") }
  let invest := jsNullish (jget (jget raw "decision") "invest") (Json.str "PASS")
  let impact : Option ImpactScoreCard :=
    (if jtruthy (jget raw "impact") then
      let imp := jget raw "impact"
      let materiality := clamp01 (jget imp "materiality")
      let bindingLevel := clamp01 (jget imp "bindingLevel")
      let counterpartyQuality := clamp01 (jget imp "counterpartyQuality")
      let specificity := clamp01 (jget imp "specificity")
      let corroboration := clamp01 (jget imp "corroboration")
      let executionRisk := clamp01 (jget imp "executionRisk")
      let total := materiality * 0.28 + bindingLevel * 0.22 +
        counterpartyQuality * 0.18 + specificity * 0.12 +
        corroboration * 0.14 + executionRisk * 0.06
      some { materiality := materiality, bindingLevel := bindingLevel,
             counterpartyQuality := counterpartyQuality,
             specificity := specificity, corroboration := corroboration,
             executionRisk := executionRisk, total := min 1 (max 0 total) }
    else none)
  {
    est := {
      label := label,
      catalyst_strength := catalyst_strength,
      expected_move := { p50 := p50, p90 := p90, bucket := bucket },
      confidence := confidence },
    decision := { invest := invest, gates := gates },
    impact := impact,
    price := price }

def WIRE_HOSTS : List String :=
  ["www.prnewswire.com", "www.globenewswire.com", "www.businesswire.com",
   "www.accesswire.com", "www.newsfilecorp.com", "prismmediawire.com",
   "www.prismmediawire.com", "mcapmediawire.com", "www.mcapmediawire.com"]

def WIRE_TOKENS : List String :=
  ["PR Newswire", "GlobeNewswire", "Business Wire", "ACCESSWIRE", "Newsfile",
   "MCAP MediaWire", "PRISM MediaWire"]

/-- llmCheck.ts `isWirePR`: recognized wire host, an
`ir.`/`investors.`/`newsroom.` host prefix, or a lowercased wire token in
the text.  (Unlike the scorer's and classifier's variants, this one also
accepts `newsroom.` and has no bare `MCAP`/`PRISM` tokens.) -/
def isWirePR (url : Option String) (text : String) : Bool :=
  (match url with
   | none => false
   | some u =>
     if u == "" then false
     else
       match hostname u with
       | none => false
       | some h =>
         WIRE_HOSTS.contains h || strStartsWith h "ir." ||
         strStartsWith h "investors." || strStartsWith h "newsroom.")
  || WIRE_TOKENS.any fun tok => containsSub (lowerList text) (lowerList tok)

/-- The character class `[\w&.,’'()-]` of the counterparty pattern. -/
def ncClass (c : Char) : Bool :=
  isWordChar c || c == '&' || c == '.' || c == ',' || c == '’' || c == '\'' ||
  c == '(' || c == ')' || c == '-'

def hncKeywords : List String :=
  ["with", "for", "from", "by", "awarded by", "contract with"]

/-- One attempt of the case-sensitive counterparty pattern
`\b(with|for|from|by|awarded by|contract with)\s+[A-Z][\w&.,’'()-]{2,}…`
at the current position; `prev` is the previous character, for the `\b`.
The trailing `(?:\s+[A-Z]…)*` group is dropped: a Kleene star matching the
empty string never affects whether `test` succeeds. -/
def hncAt (prev : Option Char) (s : List Char) : Bool :=
  !(isWordO prev) &&
  hncKeywords.any fun kw =>
    match dropLit s kw.data with
    | none => false
    | some r =>
      match countLead isSpaceJS r with
      | 0 => false
      | k + 1 =>
        match r.drop (k + 1) with
        | c :: r2 => c.isUpper && decide ((r2.takeWhile ncClass).length ≥ 2)
        | [] => false

def hncGo : Option Char → List Char → Bool
  | _, [] => false
  | prev, c :: r => hncAt prev (c :: r) || hncGo (some c) r

/-- llmCheck.ts `hasNamedCounterparty` (case-sensitive). -/
def hasNamedCounterparty (text : String) : Bool := hncGo none text.data

/-- llmCheck.ts `hasQuantDetails`: a dollar figure (with optional
million/billion-style unit), a terms/duration/units keyword, or a 2+-digit
count of units/orders/sites/clinics/stores. -/
def hasQuantDetails (text : String) : Bool :=
  rxI text
    ([tpn false true [tl "$", Tok.digits 1 (some 3), Tok.commaTriples],
      tpn false true [tl "$", Tok.digits 1 none, Tok.optFrac]] ++
     (["million", "billion", "bn", "mm", "m", "b"].flatMap fun u =>
       [tpn false true [tl "$", Tok.digits 1 (some 3), Tok.commaTriples,
          Tok.ws01, tl u],
        tpn false true [tl "$", Tok.digits 1 none, Tok.optFrac,
          Tok.ws01, tl u]])) [] ||
  hasW text ["term:", "terms:", "duration", "year", "years", "unit", "units",
             "patient", "patients", "site", "sites", "clinic", "clinics",
             "store", "stores"] ||
  rxI text
    (["unit", "units", "order", "orders", "site", "sites", "clinic",
      "clinics", "store", "stores"].map fun u =>
      tpn true true [Tok.digits 2 none, Tok.ws01, tl u]) []

/-- RX_FULLY_FUNDED =
`\b(fully[-\s]?fund(?:ed|s|ing)|funds?\s+(?:the\s+)?capex)\b`. -/
def RX_FULLY_FUNDED (s : String) : Bool :=
  rxI s
    ((["ed", "s", "ing"].flatMap fun suf =>
       [lp ("fullyfund" ++ suf), lp ("fully-fund" ++ suf),
        tp [tl "fully", Tok.wsOne, tl ("fund" ++ suf)]]) ++
     (["fund", "funds"].flatMap fun v =>
       [tp [tl v, Tok.ws1, tl "capex"],
        tp [tl v, Tok.ws1, tl "the", Tok.ws1, tl "capex"]])) []

/-- RX_PROJECT_FINANCE: a securing verb, then `[^.]{0,60}`, then a
financing-instrument phrase. -/
def RX_PROJECT_FINANCE (s : String) : Bool :=
  rxI s (lps ["secure", "secures", "obtain", "obtains", "arrange", "arranges",
              "close", "closes", "execute", "executes", "sign", "signs"])
    [(gapNoDot 60,
      lps ["gold loan", "loan", "credit facility", "project financing",
           "project finance", "debt financing", "term loan", "royalty"] ++
      [tp [tl "royalty", Tok.ws1, tl "financing"]] ++
      lps ["stream deal", "stream agreement", "streaming deal",
           "streaming agreement", "non-dilutive financing",
           "non dilutive financing", "non-dilutive funding",
           "non dilutive funding"])]

/-- RX_CONSTRUCTION_DECISION =
`\b(board of directors )?approv(?:es|ed)\b[^.]{0,80}\b(construction|final investment decision|FID|go[- ]ahead|build)\b`. -/
def RX_CONSTRUCTION_DECISION (s : String) : Bool :=
  rxI s (lps ["approves", "approved", "board of directors approves",
              "board of directors approved"])
    [(gapNoDot 80, lps ["construction", "final investment decision", "fid",
                        "go-ahead", "go ahead", "build"])]

/-- RX_PRODUCTION_START. -/
def RX_PRODUCTION_START (s : String) : Bool :=
  rxI s (lps ["commences", "commenced", "commencing", "begins", "beginning",
              "start", "starts", "started"])
    [(gapNoDot 80, lps ["production", "processing", "mining", "operation",
                        "operations", "heapleach", "heap-leach", "heap leach"])]

/-- RX_PERMIT_APPROVAL. -/
def RX_PERMIT_APPROVAL (s : String) : Bool :=
  rxI s (lps ["permit", "licence", "license", "environmental", "concession"])
    [(gapNoDot 60, lps ["approved", "granted", "received", "obtained", "issued"])]

/-- RX_ROYALTY_STREAM. -/
def RX_ROYALTY_STREAM (s : String) : Bool :=
  rxI s (lps ["royalty", "stream", "streaming"])
    [(gapNoDot 60, lps ["agreement", "financing", "facility", "transaction",
                        "deal"])]

/-- RX_OFFTAKE. -/
def RX_OFFTAKE (s : String) : Bool :=
  rxI s (lps ["off-take", "off take", "offtake"])
    [(gapNoDot 40, lps ["agreement", "contract", "mou", "memorandum"])]

/-- RX_NON_DILUTIVE. -/
def RX_NON_DILUTIVE (s : String) : Bool :=
  hasW s ["non-dilutive", "non dilutive", "no warrant", "no warrants",
          "no reverse split", "without warrants", "without a reverse split"]

/-- llmCheck.ts `marketCapM`: `(item.marketCap ?? basics.marketCapUsd)` in
millions when that is a (finite) number, else null. -/
def marketCapM (item : Item) (basicsCap : Option ℚ) : Option ℚ :=
  match item.marketCap with
  | some mc => some (mc / 1000000)
  | none => basicsCap.map fun mc => mc / 1000000

/-- llmCheck.ts `extractDollarsMillions`: its two regexes and unit table
are character for character those of classify.ts `extractDollars`, so it
is the same function. -/
def extractDollarsMillions (x : String) : Option ℚ := extractDollars x

/-- The `add(f50, f90)` floor-raiser of the calibration switch. -/
def addFloor (f : ℚ × ℚ) (f50 f90 : ℚ) : ℚ × ℚ := (max f.1 f50, max f.2 f90)

/-- llmCheck.ts `calibrateWithOTCHeuristics`: per-label keyword/ratio
floors for `p50`/`p90`, size bumps, a catalyst-strength floor in the
RESTRUCTURING case, the `max`/`min 1000` application of the floors, and
the confidence bumps. -/
def calibrateWithOTCHeuristics (item : Item) (basicsCap : Option ℚ)
    (body : String) (est : LlmEstimation) : LlmEstimation :=
  let mcM := marketCapM item basicsCap
  let amtM := (extractDollarsMillions body).getD 0
  let isMicro := match mcM with | some m => decide (m < 150) | none => true
  let isNano := match mcM with | some m => decide (m < 50) | none => true
  let onWire := isWirePR item.url body
  let ruleScore := item.score
  let label := item.klass
  let ratio := match mcM with
    | some m => if 0 < m then amtM / m else 0
    | none => 0
  let hasProjectFinance := RX_PROJECT_FINANCE body || RX_ROYALTY_STREAM body
  let hasFullyFunded := RX_FULLY_FUNDED body
  let hasConstruction := RX_CONSTRUCTION_DECISION body
  let hasPermit := RX_PERMIT_APPROVAL body
  let hasProdStart := RX_PRODUCTION_START body
  let hasOfftake := RX_OFFTAKE body
  let isNonDilutive := RX_NON_DILUTIVE body
  let hiRule := decide (ruleScore ≥ 0.58)
  let swcs : (ℚ × ℚ) × ℚ :=
    if label == "RESTRUCTURING_OR_FINANCING" then
      let f : ℚ × ℚ := (0, 0)
      let f := if hasProjectFinance then addFloor f 25 70 else f
      let f := if hasFullyFunded then addFloor f 35 100 else f
      let f := if hasConstruction then addFloor f 40 120 else f
      let f := if hasPermit then addFloor f 30 90 else f
      let f := if hasOfftake then addFloor f 25 80 else f
      let f := if hasProdStart then addFloor f 45 150 else f
      let f := if ratio ≥ (0.5 : ℚ) then addFloor f 80 200
        else if ratio ≥ 0.25 then addFloor f 55 160
        else if ratio ≥ 0.1 then addFloor f 40 110
        else if ratio ≥ 0.05 then addFloor f 28 80
        else f
      let f := if isNano then (f.1 + 12, f.2 + 30)
        else if isMicro then (f.1 + 6, f.2 + 18)
        else f
      let f := if onWire && isNonDilutive then (f.1 + 6, f.2 + 10) else f
      let strongSignals : Nat := (if hasProjectFinance then 1 else 0) +
        (if hasFullyFunded then 1 else 0) + (if hasConstruction then 1 else 0) +
        (if hasProdStart then 1 else 0)
      (f, if strongSignals ≥ 2 ∧ est.catalyst_strength < 0.72 then (0.72 : ℚ)
          else est.catalyst_strength)
    else
      let f : ℚ × ℚ :=
        if label == "ACQUISITION_BUYOUT" then
          let f : ℚ × ℚ := if hiRule then addFloor (0, 0) 45 120 else (0, 0)
          if isNano then addFloor f 10 30 else f
        else if label == "CE_REMOVAL_OR_RESUME_TRADING" then
          let f := addFloor (0, 0) 60 180
          if isNano then addFloor f 10 40 else f
        else if label == "INSIDER_BUY_CLUSTER" ||
            label == "TOXIC_FINANCING_TERMINATED" ||
            label == "DILUTION_FREE_INVESTMENT" then
          if hiRule then addFloor (0, 0) 35 100 else (0, 0)
        else if label == "MAJOR_GOV_CONTRACT" ||
            label == "GOVERNMENT_EQUITY_OR_GRANT" then
          let f : ℚ × ℚ := if hiRule then addFloor (0, 0) 40 120 else (0, 0)
          if ratio ≥ (0.1 : ℚ) then addFloor f 50 150 else f
        else if label == "LARGE_ORDER_RELATIVE" ||
            label == "DISTRIBUTION_AGREEMENT_MATERIAL" then
          if ratio ≥ (0.25 : ℚ) then addFloor (0, 0) 50 140
          else if ratio ≥ 0.1 then addFloor (0, 0) 35 100
          else addFloor (0, 0) 25 70
        else if label == "PIVOTAL_TRIAL_SUCCESS" ||
            label == "FDA_MARKETING_AUTH" ||
            label == "FDA_ADCOM_POSITIVE" then
          let f := addFloor (0, 0) 45 140
          if isNano then addFloor f 10 30 else f
        else
          if hiRule && isMicro then addFloor (0, 0) 25 70 else (0, 0)
      (f, est.catalyst_strength)
  let fl := swcs.1
  let cs := swcs.2
  let p50 := max est.expected_move.p50 fl.1
  let p90a := max est.expected_move.p90 (max (p50 + 1) fl.2)
  let p90 := min 1000 p90a
  let bucket := bucketFromP90 p90
  let conf0 := est.confidence
  let conf1 := if (p50 - est.expected_move.p50 ≥ 20 ∨
      p90 - est.expected_move.p90 ≥ 50) ∧ conf0 == "low" then "medium" else conf0
  let conf2 := (if onWire && (hasFullyFunded || hasConstruction || hasProdStart) &&
      !(conf1 == "high") then "medium" else conf1)
  { est with
    catalyst_strength := cs,
    expected_move := { p50 := p50, p90 := p90, bucket := bucket },
    confidence := conf2 }

/-- The `gatesPass` conjunction of `runLlmCheck`. -/
def gatesPassB (g : Gates) : Bool :=
  g.isWire && g.hasNamedCounterparty && g.hasQuantDetails &&
  g.hasIndependentCorroboration && g.tickerVerified && !g.redFlagsDetected

structure LlmDecision where
  invest : String
  gates : Gates

/-- The deterministic decision core of `runLlmCheck` (the code after the
model response is parsed): recompute the gates — each textual gate is the
local predicate OR the remote flag, corroboration and red flags are
remote-only, ticker verification is the remote flag OR mere presence of a
symbol — force PASS when they fail, calibrate when they pass, and decide
YES/SPECULATIVE/PASS by the confidence/strength/p90/impact thresholds.
`fetchedCap` models the market-cap provider lookup made when the item has
no truthy `marketCap`; `opts` is absent, as at the realtime call site. -/
def runLlmCheckDecision (item : Item) (fetchedCap : Option ℚ)
    (modelRaw : Json) : LlmDecision × Option LlmEstimation :=
  let symbol := item.symbols.head?
  let basicsCap : Option ℚ :=
    match item.marketCap with
    | some mc => if mc = 0 ∧ symbol.isSome then fetchedCap else some mc
    | none => if symbol.isSome then fetchedCap else none
  let fullBody := jsTrim (jsOr2 item.summary item.text)
  let body := String.mk (fullBody.data.take 4000)
  let canonicalUrl := item.url.getD ""
  let norm := sanitizeModelJSON modelRaw
  let computedGates : Gates :=
    { isWire := isWirePR (some canonicalUrl) body || norm.decision.gates.isWire,
      hasNamedCounterparty := hasNamedCounterparty body ||
        norm.decision.gates.hasNamedCounterparty,
      hasQuantDetails := hasQuantDetails body || norm.decision.gates.hasQuantDetails,
      hasIndependentCorroboration := norm.decision.gates.hasIndependentCorroboration,
      tickerVerified := norm.decision.gates.tickerVerified || symbol.isSome,
      redFlagsDetected := norm.decision.gates.redFlagsDetected }
  let est : Option LlmEstimation :=
    if gatesPassB computedGates then
      some (calibrateWithOTCHeuristics item basicsCap fullBody norm.est)
    else none
  let cs : ℚ := (est.map fun e => e.catalyst_strength).getD 0
  let conf : String := (est.map fun e => e.confidence).getD "low"
  let p90 : ℚ := (est.map fun e => e.expected_move.p90).getD 0
  let impactTotal : ℚ := (norm.impact.map fun i => i.total).getD 0
  let finalInvest :=
    (if gatesPassB computedGates then
      if conf = "high" ∧ cs ≥ (0.7 : ℚ) ∧ p90 ≥ 80 ∧ impactTotal ≥ 0.68 then
        "YES"
      else if (conf = "high" ∨ conf = "medium") ∧ cs ≥ (0.5 : ℚ) ∧ p90 ≥ 40 ∧
          impactTotal ≥ 0.5 then "SPECULATIVE"
      else "PASS"
    else "PASS")
  ({ invest := finalInvest, gates := computedGates }, est)

end LLM
end NeonPR

namespace NeonPR
namespace LLM

/-- Bounds, stated for an optional impact card: trivial when absent. -/
def impactOk : Option ImpactScoreCard → Prop
  | none => True
  | some sc =>
    0 ≤ sc.materiality ∧ sc.materiality ≤ 1 ∧
    0 ≤ sc.bindingLevel ∧ sc.bindingLevel ≤ 1 ∧
    0 ≤ sc.counterpartyQuality ∧ sc.counterpartyQuality ≤ 1 ∧
    0 ≤ sc.specificity ∧ sc.specificity ≤ 1 ∧
    0 ≤ sc.corroboration ∧ sc.corroboration ≤ 1 ∧
    0 ≤ sc.executionRisk ∧ sc.executionRisk ≤ 1 ∧
    0 ≤ sc.total ∧ sc.total ≤ 1

/-- The sanitizer's `clamp01` output is in [0, 1] for any input. -/
lemma clamp01_bounds (n : Json) : 0 ≤ clamp01 n ∧ clamp01 n ≤ 1 := by
  unfold clamp01
  cases jsNumber n with
  | none => norm_num
  | some q => exact ⟨le_max_left 0 _, max_le (by norm_num) (min_le_left 1 q)⟩

/-- `jget` on an object whose first key matches. -/
lemma jget_obj_cons_hit (k : String) (v : Json) (kvs : List (String × Json)) :
    jget (Json.obj ((k, v) :: kvs)) k = v := by
  simp [jget, List.find?]

/-- `jget` skips a non-matching first key. -/
lemma jget_obj_cons_miss (k2 k : String) (v : Json) (kvs : List (String × Json))
    (h : (k2 == k) = false) :
    jget (Json.obj ((k2, v) :: kvs)) k = jget (Json.obj kvs) k := by
  simp [jget, List.find?, h]

/-- `jget` on the empty object. -/
lemma jget_obj_nil (k : String) : jget (Json.obj []) k = Json.null := by
  simp [jget, List.find?]

/-- Claim C10: for every raw remote-response object, however malformed,
`sanitizeModelJSON` returns an estimation with `p50 ∈ [0, 1000]` and
`p90 ≥ p50 + 1` (so strictly greater than `p50`), a `catalyst_strength`
in [0, 1], and — when an impact card is present — all six impact
sub-scores and the weighted total in [0, 1]. -/
theorem claim_C10_sanitized_estimation_bounds (raw : Json) :
    0 ≤ (sanitizeModelJSON raw).est.expected_move.p50 ∧
    (sanitizeModelJSON raw).est.expected_move.p50 ≤ 1000 ∧
    (sanitizeModelJSON raw).est.expected_move.p50 + 1 ≤
      (sanitizeModelJSON raw).est.expected_move.p90 ∧
    0 ≤ (sanitizeModelJSON raw).est.catalyst_strength ∧
    (sanitizeModelJSON raw).est.catalyst_strength ≤ 1 ∧
    impactOk (sanitizeModelJSON raw).impact := by
  unfold sanitizeModelJSON
  dsimp only
  refine ⟨le_max_left 0 _, max_le (by norm_num) (min_le_left _ _),
    le_max_left _ _, ?_, ?_, ?_⟩
  · cases jsNumber (jget (jget raw "est") "catalyst_strength") with
    | none => norm_num
    | some q => exact le_max_left 0 _
  · cases jsNumber (jget (jget raw "est") "catalyst_strength") with
    | none => norm_num
    | some q => exact max_le (by norm_num) (min_le_left 1 q)
  · by_cases hb : jtruthy (jget raw "impact") = true
    · rw [if_pos hb]
      unfold impactOk
      refine ⟨(clamp01_bounds _).1, (clamp01_bounds _).2,
        (clamp01_bounds _).1, (clamp01_bounds _).2,
        (clamp01_bounds _).1, (clamp01_bounds _).2,
        (clamp01_bounds _).1, (clamp01_bounds _).2,
        (clamp01_bounds _).1, (clamp01_bounds _).2,
        (clamp01_bounds _).1, (clamp01_bounds _).2,
        le_min (by norm_num) (le_max_left 0 _), min_le_left 1 _⟩
    · rw [if_neg hb]
      unfold impactOk
      trivial

/-- Claim C4 counterexample input: the remote estimation
`{p50: 1000, p90: 5}`. -/
def rawHighP50 : Json :=
  Json.obj [("est", Json.obj [("expected_move",
    Json.obj [("p50", Json.num 1000), ("p90", Json.num 5)])])]

/-- Claim C4 counterexample: sanitizing `{p50: 1000, p90: 5}` yields
`p50 = 1000`, `p90 = 1001` (the `max(p50+1, …)` step can exceed 1000),
and calibrating that estimation — default label, no floors — returns
`p90 = 1000 < 1001`: the calibration's final `Math.min(1000, …)` LOWERS
the remote-provided p90. -/
theorem claim_C4_counterexample :
    (sanitizeModelJSON rawHighP50).est.expected_move.p90 = 1001 ∧
    (calibrateWithOTCHeuristics ({ } : Item) none ""
        (sanitizeModelJSON rawHighP50).est).expected_move.p90 = 1000 ∧
    (calibrateWithOTCHeuristics ({ } : Item) none ""
        (sanitizeModelJSON rawHighP50).est).expected_move.p90 <
      (sanitizeModelJSON rawHighP50).est.expected_move.p90 := by
  have hs : (sanitizeModelJSON rawHighP50).est.expected_move.p90 = 1001 := by
    simp +decide only [sanitizeModelJSON, rawHighP50, jget_obj_cons_hit,
      jget_obj_cons_miss, jget_obj_nil, parsePctAny, Option.getD_some,
      Option.getD_none]
    norm_num [min_def, max_def]
  have hs50 : (sanitizeModelJSON rawHighP50).est.expected_move.p50 = 1000 := by
    simp +decide only [sanitizeModelJSON, rawHighP50, jget_obj_cons_hit,
      jget_obj_cons_miss, jget_obj_nil, parsePctAny, Option.getD_some,
      Option.getD_none]
  have hc : (calibrateWithOTCHeuristics ({ } : Item) none ""
      (sanitizeModelJSON rawHighP50).est).expected_move.p90 = 1000 := by
    simp +decide only [calibrateWithOTCHeuristics, marketCapM,
      extractDollarsMillions, extractDollars, addFloor, isWirePR]
    rw [hs, hs50]
    norm_num [min_def, max_def]
  exact ⟨hs, hc, by rw [hs, hc]; norm_num⟩

/-- Claim C4 amended: the calibration never lowers the incoming `p50`, and
never lowers the incoming `p90` below `min(p90, 1000)` — the only decrease
it can apply is the final clamp of `p90` to 1000. -/
theorem claim_C4_amended (item : Item) (bc : Option ℚ) (body : String)
    (est : LlmEstimation) :
    est.expected_move.p50 ≤
      (calibrateWithOTCHeuristics item bc body est).expected_move.p50 ∧
    min est.expected_move.p90 1000 ≤
      (calibrateWithOTCHeuristics item bc body est).expected_move.p90 := by
  unfold calibrateWithOTCHeuristics
  dsimp only
  constructor
  · exact le_max_left _ _
  · exact le_min (min_le_right _ _) (le_trans (min_le_left _ _) (le_max_left _ _))

/-- When the decision is not forced to PASS, every computed gate was true:
`finalInvest` is assigned inside `if (gatesPass)` only. -/
lemma invest_pass_or_gates (g : Gates) (x : String) :
    (if gatesPassB g = true then x else "PASS") = "PASS" ∨
    (g.isWire = true ∧ g.hasNamedCounterparty = true ∧
     g.hasQuantDetails = true ∧ g.hasIndependentCorroboration = true ∧
     g.tickerVerified = true ∧ g.redFlagsDetected = false) := by
  cases h : gatesPassB g with
  | false => left; simp [h]
  | true =>
    right
    unfold gatesPassB at h
    simp only [Bool.and_eq_true, Bool.not_eq_true'] at h
    exact ⟨h.1.1.1.1.1, h.1.1.1.1.2, h.1.1.1.2, h.1.1.2, h.1.2, h.2⟩

/-- Claim C3 amended: for every enrichment run, either the final decision
is PASS, or all six computed gates passed.  The computed gates, however,
are NOT purely local: each textual gate is the local predicate OR the
remote flag, and corroboration/red-flags come from the remote response
alone (see the counterexample). -/
theorem claim_C3_gates_force_pass (item : Item) (fc : Option ℚ) (raw : Json) :
    (runLlmCheckDecision item fc raw).1.invest = "PASS" ∨
    ((runLlmCheckDecision item fc raw).1.gates.isWire = true ∧
     (runLlmCheckDecision item fc raw).1.gates.hasNamedCounterparty = true ∧
     (runLlmCheckDecision item fc raw).1.gates.hasQuantDetails = true ∧
     (runLlmCheckDecision item fc raw).1.gates.hasIndependentCorroboration = true ∧
     (runLlmCheckDecision item fc raw).1.gates.tickerVerified = true ∧
     (runLlmCheckDecision item fc raw).1.gates.redFlagsDetected = false) := by
  simp only [runLlmCheckDecision]
  exact invest_pass_or_gates _ _

/-- Claim C3 counterexample input: a remote response asserting every gate
and a maximal impact card, for an item whose own text is empty. -/
def rawRemoteYes : Json :=
  Json.obj
    [("est", Json.obj
       [("catalyst_strength", Json.num 0.8), ("confidence", Json.str "high"),
        ("expected_move", Json.obj [("p50", Json.num 50), ("p90", Json.num 100)])]),
     ("decision", Json.obj
       [("gates", Json.obj
          [("isWire", Json.bool true), ("hasNamedCounterparty", Json.bool true),
           ("hasQuantDetails", Json.bool true),
           ("hasIndependentCorroboration", Json.bool true),
           ("tickerVerified", Json.bool true),
           ("redFlagsDetected", Json.bool false)])]),
     ("impact", Json.obj
       [("materiality", Json.num 1), ("bindingLevel", Json.num 1),
        ("counterpartyQuality", Json.num 1), ("specificity", Json.num 1),
        ("corroboration", Json.num 1), ("executionRisk", Json.num 1)])]

/-- Claim C3 counterexample: an item with no text and no URL — so the
local wire/counterparty/quant predicates are all false on its body —
still gets a final decision of YES when the remote response asserts the
gates: the gates are local OR remote, not locally recomputed
"regardless of what the remote response claims". -/
theorem claim_C3_counterexample :
    (runLlmCheckDecision { symbols := ["ABC"] } none rawRemoteYes).1.invest = "YES" ∧
    isWirePR (some "") "" = false ∧
    hasNamedCounterparty "" = false ∧
    hasQuantDetails "" = false := by
  refine ⟨?_, by decide, by decide, by decide⟩
  simp +decide only [runLlmCheckDecision, sanitizeModelJSON, rawRemoteYes,
    jget_obj_cons_hit, jget_obj_cons_miss, jget_obj_nil, jsNullish, jtruthy,
    jsNumber, jsToStr, parsePctAny, clamp01, gatesPassB,
    calibrateWithOTCHeuristics, marketCapM, extractDollarsMillions,
    extractDollars, isWirePR, hasNamedCounterparty, hncGo, hasQuantDetails,
    addFloor, jsOr2, jsTrim, Option.getD_some, Option.getD_none]
  norm_num [min_def, max_def, bucketFromP90]

end LLM
end NeonPR
